import Mathlib

/-!
Verification development for the write path of libE57Format
(`src/E57SimpleWriter.cpp`).

The single source file contains the bounds-derivation pass
`_fillMinMaxData` and the `e57::Writer` facade.  We embed them shallowly:

* Floating-point coordinate values are modelled as rationals (`ℚ`).  The
  embedded code performs only comparisons and copies — no arithmetic — and
  IEEE-754 comparison on finite values coincides with the real ordering, so
  on finite (non-NaN) inputs the model is exact.  The spec explicitly
  restricts the contract to finite inputs ("assumes finite input").
* The numeric-limit constants `std::numeric_limits<float>::lowest()/max()`
  and `std::numeric_limits<double>::lowest()/max()` are the exact rational
  values of those IEEE numbers.
* `_fillMinMaxData` is a template over the coordinate type; we embed it as
  a function parameterised by the two coordinate-type extremes `cMin`,
  `cMax` and instantiate it at the float and double constants, mirroring
  the two explicit template instantiations in the source.
* The header/buffer struct types (`e57::Data3D`, `Data3DPointsData_t`,
  `IntensityLimits`) are declared in a header that is not part of the
  visible source; their fields and defaults are modelled from the spec's
  data-model section (§3).
* The `WriterImpl` container is an external collaborator (spec §6); the
  facade functions are embedded as pure functions that thread a call log,
  so that ordering and cardinality of the container calls are provable.
-/

namespace E57

/-- Modelled from the spec: the header declaring the point-field types is
not under `src/`; per the spec (§3) each numeric quantity records "whether
it is stored as floating point or as a scaled integer".  This mirrors
`e57::NumericalNodeType`. -/
inductive NumericalNodeType where
  | Integer
  | ScaledInteger
  | Float
  | Double
  deriving DecidableEq, Repr

/-- Modelled from the spec: `e57::IntensityLimits` (header not under
`src/`); "a default-valued limits struct" is the zero-initialised pair,
used as the sentinel for intensity bounds (§3, §4.1). -/
structure IntensityLimits where
  intensityMinimum : ℚ := 0
  intensityMaximum : ℚ := 0
  deriving DecidableEq, Repr

/-- Modelled from the spec: the per-record point-field descriptor
(`e57::Data3DPointFields`, header not under `src/`): which optional
quantities are present, each quantity's storage node type, and the
auxiliary range fields.  Only the members read or written by
`_fillMinMaxData` are included, plus the enable flags for the spherical
angle fields (present in the descriptor per §3 but never consulted by the
pass). -/
structure Data3DPointFields where
  cartesianXField : Bool
  cartesianYField : Bool
  cartesianZField : Bool
  sphericalRangeField : Bool
  sphericalAzimuthField : Bool
  sphericalElevationField : Bool
  intensityField : Bool
  timeStampField : Bool
  pointRangeNodeType : NumericalNodeType
  pointRangeMinimum : ℚ
  pointRangeMaximum : ℚ
  angleNodeType : NumericalNodeType
  angleMinimum : ℚ
  angleMaximum : ℚ
  timeNodeType : NumericalNodeType
  timeMinimum : ℚ
  timeMaximum : ℚ
  deriving DecidableEq, Repr

/-- Modelled from the spec: the 3D record header `e57::Data3D` (header not
under `src/`): the point-field descriptor, the expected point count and
the intensity-limits range field (§3).  Remaining header members (name,
guid, pose, …) are never touched by the embedded code and are represented
by `otherFields`, which every embedded operation must copy through
unchanged. -/
structure Data3D where
  pointCount : Int
  pointFields : Data3DPointFields
  intensityLimits : IntensityLimits
  otherFields : Nat := 0
  deriving DecidableEq, Repr

/-- Modelled from the spec: `e57::Data3DPointsData_t<COORDTYPE>` (header
not under `src/`): caller-owned parallel arrays of per-point scalars
indexed `0..count-1` (§3), modelled as total functions from the index. -/
structure Data3DPointsData where
  cartesianX : Nat → ℚ
  cartesianY : Nat → ℚ
  cartesianZ : Nat → ℚ
  sphericalRange : Nat → ℚ
  sphericalAzimuth : Nat → ℚ
  sphericalElevation : Nat → ℚ
  intensity : Nat → ℚ
  timeStamp : Nat → ℚ

/-- Exact value of `std::numeric_limits<float>::max()`, i.e.
`(2 - 2^-23) * 2^127 = 2^128 - 2^104`, written as an integer numeral so
that kernel evaluation (`decide`) stays fast. -/
def floatMax : ℚ := 340282346638528859811704183484516925440

/-- Exact value of `std::numeric_limits<float>::lowest()`:
`-(2^128 - 2^104)`. -/
def floatLowest : ℚ := -340282346638528859811704183484516925440

/-- Exact value of `std::numeric_limits<double>::max()`, i.e.
`(2 - 2^-52) * 2^1023 = 2^1024 - 2^971`, written as an integer numeral. -/
def doubleMax : ℚ :=
  179769313486231570814527423731704356798070567525844996598917476803157260780028538760589558632766878171540458953514382464234321326889464182768467546703537516986049910576551282076245490090389328944075868508455133942304583236903222948165808559332123348274797826204144723168738177180919299881250404026184124858368

/-- Exact value of `std::numeric_limits<double>::lowest()`:
`-(2^1024 - 2^971)`. -/
def doubleLowest : ℚ :=
  -179769313486231570814527423731704356798070567525844996598917476803157260780028538760589558632766878171540458953514382464234321326889464182768467546703537516986049910576551282076245490090389328944075868508455133942304583236903222948165808559332123348274797826204144723168738177180919299881250404026184124858368

/-- `writePointRange` (E57SimpleWriter.cpp lines 58-60): the point-range
family is computed iff the range is stored as scaled integer and both
bounds still hold the coordinate-type extremes `cMin`/`cMax`. -/
def writePointRangeCond (cMin cMax : ℚ) (pf : Data3DPointFields) : Prop :=
  pf.pointRangeNodeType = NumericalNodeType.ScaledInteger ∧
    pf.pointRangeMinimum = cMin ∧ pf.pointRangeMaximum = cMax

instance (cMin cMax : ℚ) (pf : Data3DPointFields) :
    Decidable (writePointRangeCond cMin cMax pf) := by
  unfold writePointRangeCond; exact inferInstance

/-- `writeAngle` (lines 68-70): angle family computed iff stored as scaled
integer and both angle bounds at the sentinel extremes.  Note: the enable
flags for azimuth/elevation are NOT consulted. -/
def writeAngleCond (cMin cMax : ℚ) (pf : Data3DPointFields) : Prop :=
  pf.angleNodeType = NumericalNodeType.ScaledInteger ∧
    pf.angleMinimum = cMin ∧ pf.angleMaximum = cMax

instance (cMin cMax : ℚ) (pf : Data3DPointFields) :
    Decidable (writeAngleCond cMin cMax pf) := by
  unfold writeAngleCond; exact inferInstance

/-- `writeIntensity` (lines 78-79): intensity field enabled and limits
equal to the default-constructed `IntensityLimits{}`. -/
def writeIntensityCond (h : Data3D) : Prop :=
  h.pointFields.intensityField = true ∧ h.intensityLimits = {}

instance (h : Data3D) : Decidable (writeIntensityCond h) := by
  unfold writeIntensityCond; exact inferInstance

/-- `writeTimeStamp` (lines 87-90): time field enabled, stored as scaled
integer, and both time bounds equal to the coordinate-type extremes
`cMin`/`cMax` (which for the float instantiation are the FLOAT extremes,
although the time fields themselves are doubles). -/
def writeTimeStampCond (cMin cMax : ℚ) (pf : Data3DPointFields) : Prop :=
  pf.timeStampField = true ∧
    pf.timeNodeType = NumericalNodeType.ScaledInteger ∧
    pf.timeMinimum = cMin ∧ pf.timeMaximum = cMax

instance (cMin cMax : ℚ) (pf : Data3DPointFields) :
    Decidable (writeTimeStampCond cMin cMax pf) := by
  unfold writeTimeStampCond; exact inferInstance

/-- The eight running accumulators of `_fillMinMaxData` (lines 55-85). -/
structure MinMaxAccum where
  pointRangeMinimum : ℚ
  pointRangeMaximum : ℚ
  angleMinimum : ℚ
  angleMaximum : ℚ
  intensityMinimum : ℚ
  intensityMaximum : ℚ
  timeMinimum : ℚ
  timeMaximum : ℚ
  deriving DecidableEq, Repr

/-- Initial accumulator values (lines 55-56, 65-66, 75-76, 84-85): the
coordinate-type extremes for point range and angle, the DOUBLE extremes
for intensity and time (the C++ uses `std::numeric_limits<double>` there
regardless of `COORDTYPE`). -/
def initAccum (cMin cMax : ℚ) : MinMaxAccum where
  pointRangeMinimum := cMax
  pointRangeMaximum := cMin
  angleMinimum := cMax
  angleMaximum := cMin
  intensityMinimum := doubleMax
  intensityMaximum := doubleLowest
  timeMinimum := doubleMax
  timeMaximum := doubleLowest

/-- Loop-body block at lines 95-104: if the point-range family is active
and the Cartesian fields are enabled, fold the x, y, z samples at index
`i` into the point-range accumulators, in program order. -/
def stepCartesian (cMin cMax : ℚ) (h : Data3D) (b : Data3DPointsData)
    (acc : MinMaxAccum) (i : Nat) : MinMaxAccum :=
  if writePointRangeCond cMin cMax h.pointFields ∧
      h.pointFields.cartesianXField = true then
    { acc with
      pointRangeMinimum :=
        min (b.cartesianZ i) (min (b.cartesianY i)
          (min (b.cartesianX i) acc.pointRangeMinimum))
      pointRangeMaximum :=
        max (b.cartesianZ i) (max (b.cartesianY i)
          (max (b.cartesianX i) acc.pointRangeMaximum)) }
  else acc

/-- Loop-body block at lines 106-113: if the point-range family is active
and the spherical-range field is enabled, fold the spherical-range sample
into the SAME point-range accumulators. -/
def stepSphericalRange (cMin cMax : ℚ) (h : Data3D) (b : Data3DPointsData)
    (acc : MinMaxAccum) (i : Nat) : MinMaxAccum :=
  if writePointRangeCond cMin cMax h.pointFields ∧
      h.pointFields.sphericalRangeField = true then
    { acc with
      pointRangeMinimum := min (b.sphericalRange i) acc.pointRangeMinimum
      pointRangeMaximum := max (b.sphericalRange i) acc.pointRangeMaximum }
  else acc

/-- Loop-body block at lines 115-122: if the angle family is active, fold
the azimuth and elevation samples into the angle accumulators.  The
azimuth/elevation enable flags are not consulted. -/
def stepAngle (cMin cMax : ℚ) (h : Data3D) (b : Data3DPointsData)
    (acc : MinMaxAccum) (i : Nat) : MinMaxAccum :=
  if writeAngleCond cMin cMax h.pointFields then
    { acc with
      angleMinimum :=
        min (b.sphericalElevation i)
          (min (b.sphericalAzimuth i) acc.angleMinimum)
      angleMaximum :=
        max (b.sphericalElevation i)
          (max (b.sphericalAzimuth i) acc.angleMaximum) }
  else acc

/-- Loop-body block at lines 124-128: intensity accumulators. -/
def stepIntensity (h : Data3D) (b : Data3DPointsData)
    (acc : MinMaxAccum) (i : Nat) : MinMaxAccum :=
  if writeIntensityCond h then
    { acc with
      intensityMinimum := min (b.intensity i) acc.intensityMinimum
      intensityMaximum := max (b.intensity i) acc.intensityMaximum }
  else acc

/-- Loop-body block at lines 130-134: time-stamp accumulators. -/
def stepTime (cMin cMax : ℚ) (h : Data3D) (b : Data3DPointsData)
    (acc : MinMaxAccum) (i : Nat) : MinMaxAccum :=
  if writeTimeStampCond cMin cMax h.pointFields then
    { acc with
      timeMinimum := min (b.timeStamp i) acc.timeMinimum
      timeMaximum := max (b.timeStamp i) acc.timeMaximum }
  else acc

/-- One iteration of the loop body of `_fillMinMaxData` (lines 93-135) at
index `i`: the five blocks in program order.  The `write*` conditions are
recomputed from the (unchanged during the loop) header data, which is
equivalent to the C++ computing them once before the loop. -/
def fillStep (cMin cMax : ℚ) (h : Data3D) (b : Data3DPointsData)
    (acc : MinMaxAccum) (i : Nat) : MinMaxAccum :=
  stepTime cMin cMax h b
    (stepIntensity h b
      (stepAngle cMin cMax h b
        (stepSphericalRange cMin cMax h b
          (stepCartesian cMin cMax h b acc i) i) i) i) i

/-- The scan loop of `_fillMinMaxData` (line 93): `for (int64_t i = 0;
i < ioData3DHeader.pointCount; ++i)`.  A non-positive `pointCount` runs
zero iterations, which `Int.toNat` captures. -/
def fillLoop (cMin cMax : ℚ) (h : Data3D) (b : Data3DPointsData) :
    MinMaxAccum :=
  (List.range h.pointCount.toNat).foldl (fillStep cMin cMax h b)
    (initAccum cMin cMax)

/-- `_fillMinMaxData` (E57SimpleWriter.cpp lines 41-160): run the scan
loop, then write each family's accumulators back into the header iff its
`write*` condition held (lines 137-159).  The buffers are taken by const
reference in the C++ and are never written; correspondingly the embedding
returns only the updated header. -/
def fillMinMaxData (cMin cMax : ℚ) (h : Data3D) (b : Data3DPointsData) :
    Data3D :=
  let acc := fillLoop cMin cMax h b
  let pf := h.pointFields
  let pf1 :=
    if writePointRangeCond cMin cMax h.pointFields then
      { pf with
        pointRangeMinimum := acc.pointRangeMinimum
        pointRangeMaximum := acc.pointRangeMaximum }
    else pf
  let pf2 :=
    if writeAngleCond cMin cMax h.pointFields then
      { pf1 with
        angleMinimum := acc.angleMinimum
        angleMaximum := acc.angleMaximum }
    else pf1
  let pf3 :=
    if writeTimeStampCond cMin cMax h.pointFields then
      { pf2 with
        timeMinimum := acc.timeMinimum
        timeMaximum := acc.timeMaximum }
    else pf2
  let il :=
    if writeIntensityCond h then
      { intensityMinimum := acc.intensityMinimum
        intensityMaximum := acc.intensityMaximum }
    else h.intensityLimits
  { h with pointFields := pf3, intensityLimits := il }

/-- The explicit single-precision instantiation (lines 161-162):
`_fillMinMaxData<float>`, with the coordinate-type extremes set to the
float limits. -/
def fillMinMaxDataFloat : Data3D → Data3DPointsData → Data3D :=
  fillMinMaxData floatLowest floatMax

/-- The explicit double-precision instantiation (lines 163-164):
`_fillMinMaxData<double>`. -/
def fillMinMaxDataDouble : Data3D → Data3DPointsData → Data3D :=
  fillMinMaxData doubleLowest doubleMax

/-! ### Contributing samples per family

The values each iteration of the loop folds into a family's
accumulators, in the order the loop body reads them. -/

/-- The point-range samples contributed at index `i`: the Cartesian x, y,
z samples when the Cartesian fields are enabled, followed by the
spherical-range sample when that field is enabled (lines 95-113). -/
def prContribution (pf : Data3DPointFields) (b : Data3DPointsData)
    (i : Nat) : List ℚ :=
  (if pf.cartesianXField = true then
    [b.cartesianX i, b.cartesianY i, b.cartesianZ i]
  else []) ++
  (if pf.sphericalRangeField = true then [b.sphericalRange i] else [])

/-- All point-range samples scanned by the pass. -/
def pointRangeSamples (h : Data3D) (b : Data3DPointsData) : List ℚ :=
  (List.range h.pointCount.toNat).flatMap (prContribution h.pointFields b)

/-- All angle samples scanned by the pass: azimuth then elevation at each
index, unconditionally on the enable flags (lines 115-122). -/
def angleSamples (h : Data3D) (b : Data3DPointsData) : List ℚ :=
  (List.range h.pointCount.toNat).flatMap
    (fun i => [b.sphericalAzimuth i, b.sphericalElevation i])

/-- All intensity samples scanned by the pass (lines 124-128). -/
def intensitySamples (h : Data3D) (b : Data3DPointsData) : List ℚ :=
  (List.range h.pointCount.toNat).map b.intensity

/-- All time-stamp samples scanned by the pass (lines 130-134). -/
def timeSamples (h : Data3D) (b : Data3DPointsData) : List ℚ :=
  (List.range h.pointCount.toNat).map b.timeStamp

/-! ### Running min/max as list folds -/

lemma foldl_min_le_init : ∀ (l : List ℚ) (a : ℚ), l.foldl min a ≤ a
  | [], a => le_refl a
  | x :: xs, a =>
    le_trans (foldl_min_le_init xs (min a x)) (min_le_left a x)

lemma foldl_min_le_mem :
    ∀ {l : List ℚ} {x : ℚ}, x ∈ l → ∀ a : ℚ, l.foldl min a ≤ x := by
  intro l
  induction l with
  | nil => intro x hx; cases hx
  | cons y ys ih =>
    intro x hx a
    rcases List.mem_cons.mp hx with rfl | hmem
    · exact le_trans (foldl_min_le_init ys (min a x)) (min_le_right a x)
    · exact ih hmem (min a y)

lemma foldl_min_mem_or_init :
    ∀ (l : List ℚ) (a : ℚ), l.foldl min a = a ∨ l.foldl min a ∈ l := by
  intro l
  induction l with
  | nil => intro a; exact Or.inl rfl
  | cons y ys ih =>
    intro a
    rcases ih (min a y) with heq | hmem
    · rw [List.foldl_cons, heq]
      rcases min_choice a y with h1 | h1
      · exact Or.inl h1
      · exact Or.inr (by rw [h1]; exact List.mem_cons_self _ _)
    · exact Or.inr (List.mem_cons_of_mem _ hmem)

lemma foldl_min_mem_of_le {l : List ℚ} {a : ℚ} (hne : l ≠ [])
    (hle : ∀ x ∈ l, x ≤ a) : l.foldl min a ∈ l := by
  rcases foldl_min_mem_or_init l a with heq | hmem
  · rcases List.exists_mem_of_ne_nil l hne with ⟨y, hy⟩
    have h1 : l.foldl min a ≤ y := foldl_min_le_mem hy a
    have h2 : y ≤ l.foldl min a := by rw [heq]; exact hle y hy
    have h3 : y = l.foldl min a := le_antisymm h2 h1
    exact h3 ▸ hy
  · exact hmem

lemma foldl_max_init_le : ∀ (l : List ℚ) (a : ℚ), a ≤ l.foldl max a
  | [], a => le_refl a
  | x :: xs, a =>
    le_trans (le_max_left a x) (foldl_max_init_le xs (max a x))

lemma foldl_max_mem_le :
    ∀ {l : List ℚ} {x : ℚ}, x ∈ l → ∀ a : ℚ, x ≤ l.foldl max a := by
  intro l
  induction l with
  | nil => intro x hx; cases hx
  | cons y ys ih =>
    intro x hx a
    rcases List.mem_cons.mp hx with rfl | hmem
    · exact le_trans (le_max_right a x) (foldl_max_init_le ys (max a x))
    · exact ih hmem (max a y)

lemma foldl_max_mem_or_init :
    ∀ (l : List ℚ) (a : ℚ), l.foldl max a = a ∨ l.foldl max a ∈ l := by
  intro l
  induction l with
  | nil => intro a; exact Or.inl rfl
  | cons y ys ih =>
    intro a
    rcases ih (max a y) with heq | hmem
    · rw [List.foldl_cons, heq]
      rcases max_choice a y with h1 | h1
      · exact Or.inl h1
      · exact Or.inr (by rw [h1]; exact List.mem_cons_self _ _)
    · exact Or.inr (List.mem_cons_of_mem _ hmem)

lemma foldl_max_mem_of_le {l : List ℚ} {a : ℚ} (hne : l ≠ [])
    (hle : ∀ x ∈ l, a ≤ x) : l.foldl max a ∈ l := by
  rcases foldl_max_mem_or_init l a with heq | hmem
  · rcases List.exists_mem_of_ne_nil l hne with ⟨y, hy⟩
    have h1 : y ≤ l.foldl max a := foldl_max_mem_le hy a
    have h2 : l.foldl max a ≤ y := by rw [heq]; exact hle y hy
    have h3 : y = l.foldl max a := le_antisymm h1 h2
    exact h3 ▸ hy
  · exact hmem

/-! ### Projections of one loop iteration -/

lemma stepCartesian_pointRangeMinimum (cMin cMax : ℚ) (h : Data3D)
    (b : Data3DPointsData) (acc : MinMaxAccum) (i : Nat) :
    (stepCartesian cMin cMax h b acc i).pointRangeMinimum =
      if writePointRangeCond cMin cMax h.pointFields ∧
        h.pointFields.cartesianXField = true then
        min (b.cartesianZ i) (min (b.cartesianY i)
          (min (b.cartesianX i) acc.pointRangeMinimum))
      else acc.pointRangeMinimum := by
  unfold stepCartesian; split <;> rfl

lemma stepCartesian_pointRangeMaximum (cMin cMax : ℚ) (h : Data3D)
    (b : Data3DPointsData) (acc : MinMaxAccum) (i : Nat) :
    (stepCartesian cMin cMax h b acc i).pointRangeMaximum =
      if writePointRangeCond cMin cMax h.pointFields ∧
        h.pointFields.cartesianXField = true then
        max (b.cartesianZ i) (max (b.cartesianY i)
          (max (b.cartesianX i) acc.pointRangeMaximum))
      else acc.pointRangeMaximum := by
  unfold stepCartesian; split <;> rfl

lemma stepCartesian_angleMinimum (cMin cMax : ℚ) (h : Data3D)
    (b : Data3DPointsData) (acc : MinMaxAccum) (i : Nat) :
    (stepCartesian cMin cMax h b acc i).angleMinimum =
      acc.angleMinimum := by
  unfold stepCartesian; split <;> rfl

lemma stepCartesian_angleMaximum (cMin cMax : ℚ) (h : Data3D)
    (b : Data3DPointsData) (acc : MinMaxAccum) (i : Nat) :
    (stepCartesian cMin cMax h b acc i).angleMaximum =
      acc.angleMaximum := by
  unfold stepCartesian; split <;> rfl

lemma stepCartesian_intensityMinimum (cMin cMax : ℚ) (h : Data3D)
    (b : Data3DPointsData) (acc : MinMaxAccum) (i : Nat) :
    (stepCartesian cMin cMax h b acc i).intensityMinimum =
      acc.intensityMinimum := by
  unfold stepCartesian; split <;> rfl

lemma stepCartesian_intensityMaximum (cMin cMax : ℚ) (h : Data3D)
    (b : Data3DPointsData) (acc : MinMaxAccum) (i : Nat) :
    (stepCartesian cMin cMax h b acc i).intensityMaximum =
      acc.intensityMaximum := by
  unfold stepCartesian; split <;> rfl

lemma stepCartesian_timeMinimum (cMin cMax : ℚ) (h : Data3D)
    (b : Data3DPointsData) (acc : MinMaxAccum) (i : Nat) :
    (stepCartesian cMin cMax h b acc i).timeMinimum =
      acc.timeMinimum := by
  unfold stepCartesian; split <;> rfl

lemma stepCartesian_timeMaximum (cMin cMax : ℚ) (h : Data3D)
    (b : Data3DPointsData) (acc : MinMaxAccum) (i : Nat) :
    (stepCartesian cMin cMax h b acc i).timeMaximum =
      acc.timeMaximum := by
  unfold stepCartesian; split <;> rfl

lemma stepSphericalRange_pointRangeMinimum (cMin cMax : ℚ) (h : Data3D)
    (b : Data3DPointsData) (acc : MinMaxAccum) (i : Nat) :
    (stepSphericalRange cMin cMax h b acc i).pointRangeMinimum =
      if writePointRangeCond cMin cMax h.pointFields ∧
        h.pointFields.sphericalRangeField = true then
        min (b.sphericalRange i) acc.pointRangeMinimum
      else acc.pointRangeMinimum := by
  unfold stepSphericalRange; split <;> rfl

lemma stepSphericalRange_pointRangeMaximum (cMin cMax : ℚ) (h : Data3D)
    (b : Data3DPointsData) (acc : MinMaxAccum) (i : Nat) :
    (stepSphericalRange cMin cMax h b acc i).pointRangeMaximum =
      if writePointRangeCond cMin cMax h.pointFields ∧
        h.pointFields.sphericalRangeField = true then
        max (b.sphericalRange i) acc.pointRangeMaximum
      else acc.pointRangeMaximum := by
  unfold stepSphericalRange; split <;> rfl

lemma stepSphericalRange_angleMinimum (cMin cMax : ℚ) (h : Data3D)
    (b : Data3DPointsData) (acc : MinMaxAccum) (i : Nat) :
    (stepSphericalRange cMin cMax h b acc i).angleMinimum =
      acc.angleMinimum := by
  unfold stepSphericalRange; split <;> rfl

lemma stepSphericalRange_angleMaximum (cMin cMax : ℚ) (h : Data3D)
    (b : Data3DPointsData) (acc : MinMaxAccum) (i : Nat) :
    (stepSphericalRange cMin cMax h b acc i).angleMaximum =
      acc.angleMaximum := by
  unfold stepSphericalRange; split <;> rfl

lemma stepSphericalRange_intensityMinimum (cMin cMax : ℚ) (h : Data3D)
    (b : Data3DPointsData) (acc : MinMaxAccum) (i : Nat) :
    (stepSphericalRange cMin cMax h b acc i).intensityMinimum =
      acc.intensityMinimum := by
  unfold stepSphericalRange; split <;> rfl

lemma stepSphericalRange_intensityMaximum (cMin cMax : ℚ) (h : Data3D)
    (b : Data3DPointsData) (acc : MinMaxAccum) (i : Nat) :
    (stepSphericalRange cMin cMax h b acc i).intensityMaximum =
      acc.intensityMaximum := by
  unfold stepSphericalRange; split <;> rfl

lemma stepSphericalRange_timeMinimum (cMin cMax : ℚ) (h : Data3D)
    (b : Data3DPointsData) (acc : MinMaxAccum) (i : Nat) :
    (stepSphericalRange cMin cMax h b acc i).timeMinimum =
      acc.timeMinimum := by
  unfold stepSphericalRange; split <;> rfl

lemma stepSphericalRange_timeMaximum (cMin cMax : ℚ) (h : Data3D)
    (b : Data3DPointsData) (acc : MinMaxAccum) (i : Nat) :
    (stepSphericalRange cMin cMax h b acc i).timeMaximum =
      acc.timeMaximum := by
  unfold stepSphericalRange; split <;> rfl

lemma stepAngle_pointRangeMinimum (cMin cMax : ℚ) (h : Data3D)
    (b : Data3DPointsData) (acc : MinMaxAccum) (i : Nat) :
    (stepAngle cMin cMax h b acc i).pointRangeMinimum =
      acc.pointRangeMinimum := by
  unfold stepAngle; split <;> rfl

lemma stepAngle_pointRangeMaximum (cMin cMax : ℚ) (h : Data3D)
    (b : Data3DPointsData) (acc : MinMaxAccum) (i : Nat) :
    (stepAngle cMin cMax h b acc i).pointRangeMaximum =
      acc.pointRangeMaximum := by
  unfold stepAngle; split <;> rfl

lemma stepAngle_angleMinimum (cMin cMax : ℚ) (h : Data3D)
    (b : Data3DPointsData) (acc : MinMaxAccum) (i : Nat) :
    (stepAngle cMin cMax h b acc i).angleMinimum =
      if writeAngleCond cMin cMax h.pointFields then
        min (b.sphericalElevation i) (min (b.sphericalAzimuth i) acc.angleMinimum)
      else acc.angleMinimum := by
  unfold stepAngle; split <;> rfl

lemma stepAngle_angleMaximum (cMin cMax : ℚ) (h : Data3D)
    (b : Data3DPointsData) (acc : MinMaxAccum) (i : Nat) :
    (stepAngle cMin cMax h b acc i).angleMaximum =
      if writeAngleCond cMin cMax h.pointFields then
        max (b.sphericalElevation i) (max (b.sphericalAzimuth i) acc.angleMaximum)
      else acc.angleMaximum := by
  unfold stepAngle; split <;> rfl

lemma stepAngle_intensityMinimum (cMin cMax : ℚ) (h : Data3D)
    (b : Data3DPointsData) (acc : MinMaxAccum) (i : Nat) :
    (stepAngle cMin cMax h b acc i).intensityMinimum =
      acc.intensityMinimum := by
  unfold stepAngle; split <;> rfl

lemma stepAngle_intensityMaximum (cMin cMax : ℚ) (h : Data3D)
    (b : Data3DPointsData) (acc : MinMaxAccum) (i : Nat) :
    (stepAngle cMin cMax h b acc i).intensityMaximum =
      acc.intensityMaximum := by
  unfold stepAngle; split <;> rfl

lemma stepAngle_timeMinimum (cMin cMax : ℚ) (h : Data3D)
    (b : Data3DPointsData) (acc : MinMaxAccum) (i : Nat) :
    (stepAngle cMin cMax h b acc i).timeMinimum =
      acc.timeMinimum := by
  unfold stepAngle; split <;> rfl

lemma stepAngle_timeMaximum (cMin cMax : ℚ) (h : Data3D)
    (b : Data3DPointsData) (acc : MinMaxAccum) (i : Nat) :
    (stepAngle cMin cMax h b acc i).timeMaximum =
      acc.timeMaximum := by
  unfold stepAngle; split <;> rfl

lemma stepIntensity_pointRangeMinimum (h : Data3D)
    (b : Data3DPointsData) (acc : MinMaxAccum) (i : Nat) :
    (stepIntensity h b acc i).pointRangeMinimum =
      acc.pointRangeMinimum := by
  unfold stepIntensity; split <;> rfl

lemma stepIntensity_pointRangeMaximum (h : Data3D)
    (b : Data3DPointsData) (acc : MinMaxAccum) (i : Nat) :
    (stepIntensity h b acc i).pointRangeMaximum =
      acc.pointRangeMaximum := by
  unfold stepIntensity; split <;> rfl

lemma stepIntensity_angleMinimum (h : Data3D)
    (b : Data3DPointsData) (acc : MinMaxAccum) (i : Nat) :
    (stepIntensity h b acc i).angleMinimum =
      acc.angleMinimum := by
  unfold stepIntensity; split <;> rfl

lemma stepIntensity_angleMaximum (h : Data3D)
    (b : Data3DPointsData) (acc : MinMaxAccum) (i : Nat) :
    (stepIntensity h b acc i).angleMaximum =
      acc.angleMaximum := by
  unfold stepIntensity; split <;> rfl

lemma stepIntensity_intensityMinimum (h : Data3D)
    (b : Data3DPointsData) (acc : MinMaxAccum) (i : Nat) :
    (stepIntensity h b acc i).intensityMinimum =
      if writeIntensityCond h then
        min (b.intensity i) acc.intensityMinimum
      else acc.intensityMinimum := by
  unfold stepIntensity; split <;> rfl

lemma stepIntensity_intensityMaximum (h : Data3D)
    (b : Data3DPointsData) (acc : MinMaxAccum) (i : Nat) :
    (stepIntensity h b acc i).intensityMaximum =
      if writeIntensityCond h then
        max (b.intensity i) acc.intensityMaximum
      else acc.intensityMaximum := by
  unfold stepIntensity; split <;> rfl

lemma stepIntensity_timeMinimum (h : Data3D)
    (b : Data3DPointsData) (acc : MinMaxAccum) (i : Nat) :
    (stepIntensity h b acc i).timeMinimum =
      acc.timeMinimum := by
  unfold stepIntensity; split <;> rfl

lemma stepIntensity_timeMaximum (h : Data3D)
    (b : Data3DPointsData) (acc : MinMaxAccum) (i : Nat) :
    (stepIntensity h b acc i).timeMaximum =
      acc.timeMaximum := by
  unfold stepIntensity; split <;> rfl

lemma stepTime_pointRangeMinimum (cMin cMax : ℚ) (h : Data3D)
    (b : Data3DPointsData) (acc : MinMaxAccum) (i : Nat) :
    (stepTime cMin cMax h b acc i).pointRangeMinimum =
      acc.pointRangeMinimum := by
  unfold stepTime; split <;> rfl

lemma stepTime_pointRangeMaximum (cMin cMax : ℚ) (h : Data3D)
    (b : Data3DPointsData) (acc : MinMaxAccum) (i : Nat) :
    (stepTime cMin cMax h b acc i).pointRangeMaximum =
      acc.pointRangeMaximum := by
  unfold stepTime; split <;> rfl

lemma stepTime_angleMinimum (cMin cMax : ℚ) (h : Data3D)
    (b : Data3DPointsData) (acc : MinMaxAccum) (i : Nat) :
    (stepTime cMin cMax h b acc i).angleMinimum =
      acc.angleMinimum := by
  unfold stepTime; split <;> rfl

lemma stepTime_angleMaximum (cMin cMax : ℚ) (h : Data3D)
    (b : Data3DPointsData) (acc : MinMaxAccum) (i : Nat) :
    (stepTime cMin cMax h b acc i).angleMaximum =
      acc.angleMaximum := by
  unfold stepTime; split <;> rfl

lemma stepTime_intensityMinimum (cMin cMax : ℚ) (h : Data3D)
    (b : Data3DPointsData) (acc : MinMaxAccum) (i : Nat) :
    (stepTime cMin cMax h b acc i).intensityMinimum =
      acc.intensityMinimum := by
  unfold stepTime; split <;> rfl

lemma stepTime_intensityMaximum (cMin cMax : ℚ) (h : Data3D)
    (b : Data3DPointsData) (acc : MinMaxAccum) (i : Nat) :
    (stepTime cMin cMax h b acc i).intensityMaximum =
      acc.intensityMaximum := by
  unfold stepTime; split <;> rfl

lemma stepTime_timeMinimum (cMin cMax : ℚ) (h : Data3D)
    (b : Data3DPointsData) (acc : MinMaxAccum) (i : Nat) :
    (stepTime cMin cMax h b acc i).timeMinimum =
      if writeTimeStampCond cMin cMax h.pointFields then
        min (b.timeStamp i) acc.timeMinimum
      else acc.timeMinimum := by
  unfold stepTime; split <;> rfl

lemma stepTime_timeMaximum (cMin cMax : ℚ) (h : Data3D)
    (b : Data3DPointsData) (acc : MinMaxAccum) (i : Nat) :
    (stepTime cMin cMax h b acc i).timeMaximum =
      if writeTimeStampCond cMin cMax h.pointFields then
        max (b.timeStamp i) acc.timeMaximum
      else acc.timeMaximum := by
  unfold stepTime; split <;> rfl

/-! ### Projections of a full loop iteration -/

lemma fillStep_pointRangeMinimum (cMin cMax : ℚ) (h : Data3D)
    (b : Data3DPointsData) (acc : MinMaxAccum) (i : Nat) :
    (fillStep cMin cMax h b acc i).pointRangeMinimum =
      if writePointRangeCond cMin cMax h.pointFields then
        (prContribution h.pointFields b i).foldl min acc.pointRangeMinimum
      else acc.pointRangeMinimum := by
  unfold fillStep
  rw [stepTime_pointRangeMinimum, stepIntensity_pointRangeMinimum,
    stepAngle_pointRangeMinimum, stepSphericalRange_pointRangeMinimum,
    stepCartesian_pointRangeMinimum]
  by_cases hw : writePointRangeCond cMin cMax h.pointFields <;>
    by_cases hx : h.pointFields.cartesianXField = true <;>
    by_cases hs : h.pointFields.sphericalRangeField = true <;>
    simp [prContribution, hw, hx, hs, min_comm, min_assoc, min_left_comm]

lemma fillStep_pointRangeMaximum (cMin cMax : ℚ) (h : Data3D)
    (b : Data3DPointsData) (acc : MinMaxAccum) (i : Nat) :
    (fillStep cMin cMax h b acc i).pointRangeMaximum =
      if writePointRangeCond cMin cMax h.pointFields then
        (prContribution h.pointFields b i).foldl max acc.pointRangeMaximum
      else acc.pointRangeMaximum := by
  unfold fillStep
  rw [stepTime_pointRangeMaximum, stepIntensity_pointRangeMaximum,
    stepAngle_pointRangeMaximum, stepSphericalRange_pointRangeMaximum,
    stepCartesian_pointRangeMaximum]
  by_cases hw : writePointRangeCond cMin cMax h.pointFields <;>
    by_cases hx : h.pointFields.cartesianXField = true <;>
    by_cases hs : h.pointFields.sphericalRangeField = true <;>
    simp [prContribution, hw, hx, hs, max_comm, max_assoc, max_left_comm]

lemma fillStep_angleMinimum (cMin cMax : ℚ) (h : Data3D)
    (b : Data3DPointsData) (acc : MinMaxAccum) (i : Nat) :
    (fillStep cMin cMax h b acc i).angleMinimum =
      if writeAngleCond cMin cMax h.pointFields then
        ([b.sphericalAzimuth i, b.sphericalElevation i]).foldl min
          acc.angleMinimum
      else acc.angleMinimum := by
  unfold fillStep
  rw [stepTime_angleMinimum, stepIntensity_angleMinimum,
    stepAngle_angleMinimum, stepSphericalRange_angleMinimum,
    stepCartesian_angleMinimum]
  by_cases ha : writeAngleCond cMin cMax h.pointFields <;>
    simp [ha, min_comm, min_assoc, min_left_comm]

lemma fillStep_angleMaximum (cMin cMax : ℚ) (h : Data3D)
    (b : Data3DPointsData) (acc : MinMaxAccum) (i : Nat) :
    (fillStep cMin cMax h b acc i).angleMaximum =
      if writeAngleCond cMin cMax h.pointFields then
        ([b.sphericalAzimuth i, b.sphericalElevation i]).foldl max
          acc.angleMaximum
      else acc.angleMaximum := by
  unfold fillStep
  rw [stepTime_angleMaximum, stepIntensity_angleMaximum,
    stepAngle_angleMaximum, stepSphericalRange_angleMaximum,
    stepCartesian_angleMaximum]
  by_cases ha : writeAngleCond cMin cMax h.pointFields <;>
    simp [ha, max_comm, max_assoc, max_left_comm]

lemma fillStep_intensityMinimum (cMin cMax : ℚ) (h : Data3D)
    (b : Data3DPointsData) (acc : MinMaxAccum) (i : Nat) :
    (fillStep cMin cMax h b acc i).intensityMinimum =
      if writeIntensityCond h then
        min acc.intensityMinimum (b.intensity i)
      else acc.intensityMinimum := by
  unfold fillStep
  rw [stepTime_intensityMinimum, stepIntensity_intensityMinimum,
    stepAngle_intensityMinimum, stepSphericalRange_intensityMinimum,
    stepCartesian_intensityMinimum]
  by_cases hi : writeIntensityCond h <;> simp [hi, min_comm]

lemma fillStep_intensityMaximum (cMin cMax : ℚ) (h : Data3D)
    (b : Data3DPointsData) (acc : MinMaxAccum) (i : Nat) :
    (fillStep cMin cMax h b acc i).intensityMaximum =
      if writeIntensityCond h then
        max acc.intensityMaximum (b.intensity i)
      else acc.intensityMaximum := by
  unfold fillStep
  rw [stepTime_intensityMaximum, stepIntensity_intensityMaximum,
    stepAngle_intensityMaximum, stepSphericalRange_intensityMaximum,
    stepCartesian_intensityMaximum]
  by_cases hi : writeIntensityCond h <;> simp [hi, max_comm]

lemma fillStep_timeMinimum (cMin cMax : ℚ) (h : Data3D)
    (b : Data3DPointsData) (acc : MinMaxAccum) (i : Nat) :
    (fillStep cMin cMax h b acc i).timeMinimum =
      if writeTimeStampCond cMin cMax h.pointFields then
        min acc.timeMinimum (b.timeStamp i)
      else acc.timeMinimum := by
  unfold fillStep
  rw [stepTime_timeMinimum, stepIntensity_timeMinimum,
    stepAngle_timeMinimum, stepSphericalRange_timeMinimum,
    stepCartesian_timeMinimum]
  by_cases ht : writeTimeStampCond cMin cMax h.pointFields <;>
    simp [ht, min_comm]

lemma fillStep_timeMaximum (cMin cMax : ℚ) (h : Data3D)
    (b : Data3DPointsData) (acc : MinMaxAccum) (i : Nat) :
    (fillStep cMin cMax h b acc i).timeMaximum =
      if writeTimeStampCond cMin cMax h.pointFields then
        max acc.timeMaximum (b.timeStamp i)
      else acc.timeMaximum := by
  unfold fillStep
  rw [stepTime_timeMaximum, stepIntensity_timeMaximum,
    stepAngle_timeMaximum, stepSphericalRange_timeMaximum,
    stepCartesian_timeMaximum]
  by_cases ht : writeTimeStampCond cMin cMax h.pointFields <;>
    simp [ht, max_comm]

/-! ### The scan loop as folds over the sample lists -/

lemma foldl_fillStep_pointRangeMinimum (cMin cMax : ℚ) (h : Data3D)
    (b : Data3DPointsData) :
    ∀ (l : List Nat) (acc : MinMaxAccum),
      (l.foldl (fillStep cMin cMax h b) acc).pointRangeMinimum =
        if writePointRangeCond cMin cMax h.pointFields then
          (l.flatMap (prContribution h.pointFields b)).foldl min
            acc.pointRangeMinimum
        else acc.pointRangeMinimum := by
  intro l
  induction l with
  | nil => intro acc; split <;> rfl
  | cons i is ih =>
    intro acc
    rw [List.foldl_cons, ih (fillStep cMin cMax h b acc i),
      fillStep_pointRangeMinimum, List.flatMap_cons]
    by_cases hc : writePointRangeCond cMin cMax h.pointFields
    · rw [if_pos hc, if_pos hc, if_pos hc, List.foldl_append]
    · rw [if_neg hc, if_neg hc, if_neg hc]

lemma foldl_fillStep_pointRangeMaximum (cMin cMax : ℚ) (h : Data3D)
    (b : Data3DPointsData) :
    ∀ (l : List Nat) (acc : MinMaxAccum),
      (l.foldl (fillStep cMin cMax h b) acc).pointRangeMaximum =
        if writePointRangeCond cMin cMax h.pointFields then
          (l.flatMap (prContribution h.pointFields b)).foldl max
            acc.pointRangeMaximum
        else acc.pointRangeMaximum := by
  intro l
  induction l with
  | nil => intro acc; split <;> rfl
  | cons i is ih =>
    intro acc
    rw [List.foldl_cons, ih (fillStep cMin cMax h b acc i),
      fillStep_pointRangeMaximum, List.flatMap_cons]
    by_cases hc : writePointRangeCond cMin cMax h.pointFields
    · rw [if_pos hc, if_pos hc, if_pos hc, List.foldl_append]
    · rw [if_neg hc, if_neg hc, if_neg hc]

lemma foldl_fillStep_angleMinimum (cMin cMax : ℚ) (h : Data3D)
    (b : Data3DPointsData) :
    ∀ (l : List Nat) (acc : MinMaxAccum),
      (l.foldl (fillStep cMin cMax h b) acc).angleMinimum =
        if writeAngleCond cMin cMax h.pointFields then
          (l.flatMap
            (fun i => [b.sphericalAzimuth i, b.sphericalElevation i])).foldl min
            acc.angleMinimum
        else acc.angleMinimum := by
  intro l
  induction l with
  | nil => intro acc; split <;> rfl
  | cons i is ih =>
    intro acc
    rw [List.foldl_cons, ih (fillStep cMin cMax h b acc i),
      fillStep_angleMinimum, List.flatMap_cons]
    by_cases hc : writeAngleCond cMin cMax h.pointFields
    · rw [if_pos hc, if_pos hc, if_pos hc, List.foldl_append]
    · rw [if_neg hc, if_neg hc, if_neg hc]

lemma foldl_fillStep_angleMaximum (cMin cMax : ℚ) (h : Data3D)
    (b : Data3DPointsData) :
    ∀ (l : List Nat) (acc : MinMaxAccum),
      (l.foldl (fillStep cMin cMax h b) acc).angleMaximum =
        if writeAngleCond cMin cMax h.pointFields then
          (l.flatMap
            (fun i => [b.sphericalAzimuth i, b.sphericalElevation i])).foldl max
            acc.angleMaximum
        else acc.angleMaximum := by
  intro l
  induction l with
  | nil => intro acc; split <;> rfl
  | cons i is ih =>
    intro acc
    rw [List.foldl_cons, ih (fillStep cMin cMax h b acc i),
      fillStep_angleMaximum, List.flatMap_cons]
    by_cases hc : writeAngleCond cMin cMax h.pointFields
    · rw [if_pos hc, if_pos hc, if_pos hc, List.foldl_append]
    · rw [if_neg hc, if_neg hc, if_neg hc]

lemma foldl_fillStep_intensityMinimum (cMin cMax : ℚ) (h : Data3D)
    (b : Data3DPointsData) :
    ∀ (l : List Nat) (acc : MinMaxAccum),
      (l.foldl (fillStep cMin cMax h b) acc).intensityMinimum =
        if writeIntensityCond h then
          (l.map b.intensity).foldl min
            acc.intensityMinimum
        else acc.intensityMinimum := by
  intro l
  induction l with
  | nil => intro acc; split <;> rfl
  | cons i is ih =>
    intro acc
    rw [List.foldl_cons, ih (fillStep cMin cMax h b acc i),
      fillStep_intensityMinimum, List.map_cons]
    by_cases hc : writeIntensityCond h
    · rw [if_pos hc, if_pos hc, if_pos hc, List.foldl_cons]
    · rw [if_neg hc, if_neg hc, if_neg hc]

lemma foldl_fillStep_intensityMaximum (cMin cMax : ℚ) (h : Data3D)
    (b : Data3DPointsData) :
    ∀ (l : List Nat) (acc : MinMaxAccum),
      (l.foldl (fillStep cMin cMax h b) acc).intensityMaximum =
        if writeIntensityCond h then
          (l.map b.intensity).foldl max
            acc.intensityMaximum
        else acc.intensityMaximum := by
  intro l
  induction l with
  | nil => intro acc; split <;> rfl
  | cons i is ih =>
    intro acc
    rw [List.foldl_cons, ih (fillStep cMin cMax h b acc i),
      fillStep_intensityMaximum, List.map_cons]
    by_cases hc : writeIntensityCond h
    · rw [if_pos hc, if_pos hc, if_pos hc, List.foldl_cons]
    · rw [if_neg hc, if_neg hc, if_neg hc]

lemma foldl_fillStep_timeMinimum (cMin cMax : ℚ) (h : Data3D)
    (b : Data3DPointsData) :
    ∀ (l : List Nat) (acc : MinMaxAccum),
      (l.foldl (fillStep cMin cMax h b) acc).timeMinimum =
        if writeTimeStampCond cMin cMax h.pointFields then
          (l.map b.timeStamp).foldl min
            acc.timeMinimum
        else acc.timeMinimum := by
  intro l
  induction l with
  | nil => intro acc; split <;> rfl
  | cons i is ih =>
    intro acc
    rw [List.foldl_cons, ih (fillStep cMin cMax h b acc i),
      fillStep_timeMinimum, List.map_cons]
    by_cases hc : writeTimeStampCond cMin cMax h.pointFields
    · rw [if_pos hc, if_pos hc, if_pos hc, List.foldl_cons]
    · rw [if_neg hc, if_neg hc, if_neg hc]

lemma foldl_fillStep_timeMaximum (cMin cMax : ℚ) (h : Data3D)
    (b : Data3DPointsData) :
    ∀ (l : List Nat) (acc : MinMaxAccum),
      (l.foldl (fillStep cMin cMax h b) acc).timeMaximum =
        if writeTimeStampCond cMin cMax h.pointFields then
          (l.map b.timeStamp).foldl max
            acc.timeMaximum
        else acc.timeMaximum := by
  intro l
  induction l with
  | nil => intro acc; split <;> rfl
  | cons i is ih =>
    intro acc
    rw [List.foldl_cons, ih (fillStep cMin cMax h b acc i),
      fillStep_timeMaximum, List.map_cons]
    by_cases hc : writeTimeStampCond cMin cMax h.pointFields
    · rw [if_pos hc, if_pos hc, if_pos hc, List.foldl_cons]
    · rw [if_neg hc, if_neg hc, if_neg hc]

/-! ### Accumulator values after the whole scan -/

lemma fillLoop_pointRangeMinimum (cMin cMax : ℚ) (h : Data3D)
    (b : Data3DPointsData) :
    (fillLoop cMin cMax h b).pointRangeMinimum =
      if writePointRangeCond cMin cMax h.pointFields then
        (pointRangeSamples h b).foldl min cMax
      else cMax := by
  unfold fillLoop pointRangeSamples
  rw [foldl_fillStep_pointRangeMinimum]
  split <;> rfl

lemma fillLoop_pointRangeMaximum (cMin cMax : ℚ) (h : Data3D)
    (b : Data3DPointsData) :
    (fillLoop cMin cMax h b).pointRangeMaximum =
      if writePointRangeCond cMin cMax h.pointFields then
        (pointRangeSamples h b).foldl max cMin
      else cMin := by
  unfold fillLoop pointRangeSamples
  rw [foldl_fillStep_pointRangeMaximum]
  split <;> rfl

lemma fillLoop_angleMinimum (cMin cMax : ℚ) (h : Data3D)
    (b : Data3DPointsData) :
    (fillLoop cMin cMax h b).angleMinimum =
      if writeAngleCond cMin cMax h.pointFields then
        (angleSamples h b).foldl min cMax
      else cMax := by
  unfold fillLoop angleSamples
  rw [foldl_fillStep_angleMinimum]
  split <;> rfl

lemma fillLoop_angleMaximum (cMin cMax : ℚ) (h : Data3D)
    (b : Data3DPointsData) :
    (fillLoop cMin cMax h b).angleMaximum =
      if writeAngleCond cMin cMax h.pointFields then
        (angleSamples h b).foldl max cMin
      else cMin := by
  unfold fillLoop angleSamples
  rw [foldl_fillStep_angleMaximum]
  split <;> rfl

lemma fillLoop_intensityMinimum (cMin cMax : ℚ) (h : Data3D)
    (b : Data3DPointsData) :
    (fillLoop cMin cMax h b).intensityMinimum =
      if writeIntensityCond h then
        (intensitySamples h b).foldl min doubleMax
      else doubleMax := by
  unfold fillLoop intensitySamples
  rw [foldl_fillStep_intensityMinimum]
  split <;> rfl

lemma fillLoop_intensityMaximum (cMin cMax : ℚ) (h : Data3D)
    (b : Data3DPointsData) :
    (fillLoop cMin cMax h b).intensityMaximum =
      if writeIntensityCond h then
        (intensitySamples h b).foldl max doubleLowest
      else doubleLowest := by
  unfold fillLoop intensitySamples
  rw [foldl_fillStep_intensityMaximum]
  split <;> rfl

lemma fillLoop_timeMinimum (cMin cMax : ℚ) (h : Data3D)
    (b : Data3DPointsData) :
    (fillLoop cMin cMax h b).timeMinimum =
      if writeTimeStampCond cMin cMax h.pointFields then
        (timeSamples h b).foldl min doubleMax
      else doubleMax := by
  unfold fillLoop timeSamples
  rw [foldl_fillStep_timeMinimum]
  split <;> rfl

lemma fillLoop_timeMaximum (cMin cMax : ℚ) (h : Data3D)
    (b : Data3DPointsData) :
    (fillLoop cMin cMax h b).timeMaximum =
      if writeTimeStampCond cMin cMax h.pointFields then
        (timeSamples h b).foldl max doubleLowest
      else doubleLowest := by
  unfold fillLoop timeSamples
  rw [foldl_fillStep_timeMaximum]
  split <;> rfl

/-! ### Closed form of the whole pass -/

/-- Closed form of `_fillMinMaxData`: each family's bounds are overwritten
with the fold of its contributing samples over its accumulator's initial
value iff that family's `write*` condition holds on the incoming header;
everything else in the header is copied through. -/
lemma fillMinMaxData_eq (cMin cMax : ℚ) (h : Data3D)
    (b : Data3DPointsData) :
    fillMinMaxData cMin cMax h b =
      { h with
        pointFields := { h.pointFields with
          pointRangeMinimum :=
            if writePointRangeCond cMin cMax h.pointFields then
              (pointRangeSamples h b).foldl min cMax
            else h.pointFields.pointRangeMinimum
          pointRangeMaximum :=
            if writePointRangeCond cMin cMax h.pointFields then
              (pointRangeSamples h b).foldl max cMin
            else h.pointFields.pointRangeMaximum
          angleMinimum :=
            if writeAngleCond cMin cMax h.pointFields then
              (angleSamples h b).foldl min cMax
            else h.pointFields.angleMinimum
          angleMaximum :=
            if writeAngleCond cMin cMax h.pointFields then
              (angleSamples h b).foldl max cMin
            else h.pointFields.angleMaximum
          timeMinimum :=
            if writeTimeStampCond cMin cMax h.pointFields then
              (timeSamples h b).foldl min doubleMax
            else h.pointFields.timeMinimum
          timeMaximum :=
            if writeTimeStampCond cMin cMax h.pointFields then
              (timeSamples h b).foldl max doubleLowest
            else h.pointFields.timeMaximum }
        intensityLimits :=
          if writeIntensityCond h then
            { intensityMinimum := (intensitySamples h b).foldl min doubleMax
              intensityMaximum :=
                (intensitySamples h b).foldl max doubleLowest }
          else h.intensityLimits } := by
  by_cases hw : writePointRangeCond cMin cMax h.pointFields <;>
    by_cases ha : writeAngleCond cMin cMax h.pointFields <;>
    by_cases ht : writeTimeStampCond cMin cMax h.pointFields <;>
    by_cases hi : writeIntensityCond h <;>
    simp [fillMinMaxData, hw, ha, ht, hi, fillLoop_pointRangeMinimum,
      fillLoop_pointRangeMaximum, fillLoop_angleMinimum,
      fillLoop_angleMaximum, fillLoop_intensityMinimum,
      fillLoop_intensityMaximum, fillLoop_timeMinimum, fillLoop_timeMaximum]

/-! ### Frame facts: what the pass never touches -/

lemma fillMinMaxData_pointCount (cMin cMax : ℚ) (h : Data3D)
    (b : Data3DPointsData) :
    (fillMinMaxData cMin cMax h b).pointCount = h.pointCount := by
  rw [fillMinMaxData_eq]

lemma fillMinMaxData_otherFields (cMin cMax : ℚ) (h : Data3D)
    (b : Data3DPointsData) :
    (fillMinMaxData cMin cMax h b).otherFields = h.otherFields := by
  rw [fillMinMaxData_eq]

/-- All configuration members of the point-field descriptor (enable flags
and node types) are copied through unchanged by the pass. -/
lemma fillMinMaxData_config (cMin cMax : ℚ) (h : Data3D)
    (b : Data3DPointsData) :
    (fillMinMaxData cMin cMax h b).pointFields.cartesianXField =
        h.pointFields.cartesianXField ∧
      (fillMinMaxData cMin cMax h b).pointFields.cartesianYField =
        h.pointFields.cartesianYField ∧
      (fillMinMaxData cMin cMax h b).pointFields.cartesianZField =
        h.pointFields.cartesianZField ∧
      (fillMinMaxData cMin cMax h b).pointFields.sphericalRangeField =
        h.pointFields.sphericalRangeField ∧
      (fillMinMaxData cMin cMax h b).pointFields.sphericalAzimuthField =
        h.pointFields.sphericalAzimuthField ∧
      (fillMinMaxData cMin cMax h b).pointFields.sphericalElevationField =
        h.pointFields.sphericalElevationField ∧
      (fillMinMaxData cMin cMax h b).pointFields.intensityField =
        h.pointFields.intensityField ∧
      (fillMinMaxData cMin cMax h b).pointFields.timeStampField =
        h.pointFields.timeStampField ∧
      (fillMinMaxData cMin cMax h b).pointFields.pointRangeNodeType =
        h.pointFields.pointRangeNodeType ∧
      (fillMinMaxData cMin cMax h b).pointFields.angleNodeType =
        h.pointFields.angleNodeType ∧
      (fillMinMaxData cMin cMax h b).pointFields.timeNodeType =
        h.pointFields.timeNodeType := by
  rw [fillMinMaxData_eq]
  exact ⟨rfl, rfl, rfl, rfl, rfl, rfl, rfl, rfl, rfl, rfl, rfl⟩

/-- The sample lists depend only on the point count and the enable flags,
all preserved by the pass: rescanning after a run sees the same samples. -/
lemma pointRangeSamples_fill (cMin cMax : ℚ) (h : Data3D)
    (b b2 : Data3DPointsData) :
    pointRangeSamples (fillMinMaxData cMin cMax h b) b2 =
      pointRangeSamples h b2 := by
  rw [fillMinMaxData_eq]; rfl

lemma angleSamples_fill (cMin cMax : ℚ) (h : Data3D)
    (b b2 : Data3DPointsData) :
    angleSamples (fillMinMaxData cMin cMax h b) b2 = angleSamples h b2 := by
  rw [fillMinMaxData_eq]; rfl

lemma intensitySamples_fill (cMin cMax : ℚ) (h : Data3D)
    (b b2 : Data3DPointsData) :
    intensitySamples (fillMinMaxData cMin cMax h b) b2 =
      intensitySamples h b2 := by
  rw [fillMinMaxData_eq]; rfl

lemma timeSamples_fill (cMin cMax : ℚ) (h : Data3D)
    (b b2 : Data3DPointsData) :
    timeSamples (fillMinMaxData cMin cMax h b) b2 = timeSamples h b2 := by
  rw [fillMinMaxData_eq]; rfl

/-! ### The `e57::Writer` facade

The `WriterImpl` container behind the facade is an external collaborator
(spec §6); only its call surface matters here.  The facade functions are
embedded as pure functions that thread an explicit list of container
calls, so ordering and cardinality of the calls are provable, and are
parameterised by the container's response values. -/

/-- Modelled from the spec: the 2D-image record header `e57::Image2D`
(header not under `src/`); the facade only passes it through to the
container, so a single opaque payload field suffices. -/
structure Image2D where
  otherFields : Nat := 0
  deriving DecidableEq, Repr

/-- One call from the facade into the container / streaming writer.
`imageType` and `projection` are the opaque enum values passed through
unchanged. -/
inductive WriterCall where
  | newData3D (header : Data3D)
  | setUpData3DPointsData (dataIndex : Int) (pointCount : Nat)
  | cvWrite (requestedCount : Nat)
  | cvClose
  | newImage2D (header : Image2D)
  | writeImage2DData (imageIndex : Int) (imageType : Nat)
      (projection : Nat) (startPos : Int) (sizeInBytes : Nat)
  deriving DecidableEq, Repr

/-- C++ `static_cast<size_t>` applied to an `int64_t` value: reduction
modulo `2^64` (negative values wrap to huge unsigned values). -/
def toSizeT (x : Int) : Nat := (x % (2 ^ 64 : Int)).toNat

/-- C++ `static_cast<int64_t>` applied to a `size_t` value: modular
(two's-complement) conversion. -/
def toInt64 (n : Nat) : Int := ((n : Int) + 2 ^ 63) % 2 ^ 64 - 2 ^ 63

/-- Modelled from the spec: the response values of the external container
(`WriterImpl`): the record index `createRecord` assigns to a new 3D or 2D
record, and the actually-written byte count the image streaming write
reports (§6).  The facade theorems hold for every response model. -/
structure ImplModel where
  newData3DIndex : Data3D → Int
  newImage2DIndex : Image2D → Int
  imageWrittenCount : Int → Int → Nat → Nat

/-- `Writer::WriteData3DData` (E57SimpleWriter.cpp lines 223-236 for the
float buffers and 238-251 for the double buffers; the two overloads are
textually identical and are embedded once, parameterised by the
coordinate-type extremes exactly as `_fillMinMaxData` is): run
`_fillMinMaxData` on the header (mutated in place, so every later use of
`data3DHeader` sees the filled header), create the record, set up the
streaming writer, write `data3DHeader.pointCount` records, close, and
return the scan index.  Returns (scan index, header after the call, call
log). -/
def WriteData3DData (m : ImplModel) (cMin cMax : ℚ) (data3DHeader : Data3D)
    (buffers : Data3DPointsData) (log : List WriterCall) :
    Int × Data3D × List WriterCall :=
  let h1 := fillMinMaxData cMin cMax data3DHeader buffers
  let scanIndex := m.newData3DIndex h1
  let log := log ++ [WriterCall.newData3D h1]
  let log := log ++
    [WriterCall.setUpData3DPointsData scanIndex (toSizeT h1.pointCount)]
  let log := log ++ [WriterCall.cvWrite (toSizeT h1.pointCount)]
  let log := log ++ [WriterCall.cvClose]
  (scanIndex, h1, log)

/-- `Writer::WriteImage2DData` (header overload, lines 190-203): cast the
byte count to `size_t`, create the image record, stream the byte range
into it, and return the written count cast back to `int64_t`.  The image
header is only forwarded; no statistics pass exists for images. -/
def WriteImage2DDataHeader (m : ImplModel) (image2DHeader : Image2D)
    (imageType projection : Nat) (startPos byteCount : Int)
    (log : List WriterCall) : Int × List WriterCall :=
  let sizeInBytes := toSizeT byteCount
  let imageIndex := m.newImage2DIndex image2DHeader
  let log := log ++ [WriterCall.newImage2D image2DHeader]
  let written := m.imageWrittenCount imageIndex startPos sizeInBytes
  let log := log ++
    [WriterCall.writeImage2DData imageIndex imageType projection startPos
      sizeInBytes]
  (toInt64 written, log)

/-- `Writer::WriteImage2DData` (index overload, lines 210-221): cast the
count to `size_t`, stream into the existing record, return the written
count cast back to `int64_t`. -/
def WriteImage2DDataIndex (m : ImplModel) (imageIndex : Int)
    (imageType projection : Nat) (start count : Int)
    (log : List WriterCall) : Int × List WriterCall :=
  let size := toSizeT count
  let written := m.imageWrittenCount imageIndex start size
  (toInt64 written,
    log ++
      [WriterCall.writeImage2DData imageIndex imageType projection start
        size])

/-! ### Per-family resolved / unchanged forms -/

lemma fill_pointRangeMinimum_of_cond (cMin cMax : ℚ) (h : Data3D)
    (b : Data3DPointsData) (hc : writePointRangeCond cMin cMax h.pointFields) :
    (fillMinMaxData cMin cMax h b).pointFields.pointRangeMinimum =
      (pointRangeSamples h b).foldl min cMax := by
  rw [fillMinMaxData_eq]; simp [hc]

lemma fill_pointRangeMaximum_of_cond (cMin cMax : ℚ) (h : Data3D)
    (b : Data3DPointsData) (hc : writePointRangeCond cMin cMax h.pointFields) :
    (fillMinMaxData cMin cMax h b).pointFields.pointRangeMaximum =
      (pointRangeSamples h b).foldl max cMin := by
  rw [fillMinMaxData_eq]; simp [hc]

lemma fill_pointRangeMinimum_of_not_cond (cMin cMax : ℚ) (h : Data3D)
    (b : Data3DPointsData) (hc : ¬ writePointRangeCond cMin cMax h.pointFields) :
    (fillMinMaxData cMin cMax h b).pointFields.pointRangeMinimum = h.pointFields.pointRangeMinimum := by
  rw [fillMinMaxData_eq]; simp [hc]

lemma fill_pointRangeMaximum_of_not_cond (cMin cMax : ℚ) (h : Data3D)
    (b : Data3DPointsData) (hc : ¬ writePointRangeCond cMin cMax h.pointFields) :
    (fillMinMaxData cMin cMax h b).pointFields.pointRangeMaximum = h.pointFields.pointRangeMaximum := by
  rw [fillMinMaxData_eq]; simp [hc]

lemma fill_angleMinimum_of_cond (cMin cMax : ℚ) (h : Data3D)
    (b : Data3DPointsData) (hc : writeAngleCond cMin cMax h.pointFields) :
    (fillMinMaxData cMin cMax h b).pointFields.angleMinimum =
      (angleSamples h b).foldl min cMax := by
  rw [fillMinMaxData_eq]; simp [hc]

lemma fill_angleMaximum_of_cond (cMin cMax : ℚ) (h : Data3D)
    (b : Data3DPointsData) (hc : writeAngleCond cMin cMax h.pointFields) :
    (fillMinMaxData cMin cMax h b).pointFields.angleMaximum =
      (angleSamples h b).foldl max cMin := by
  rw [fillMinMaxData_eq]; simp [hc]

lemma fill_angleMinimum_of_not_cond (cMin cMax : ℚ) (h : Data3D)
    (b : Data3DPointsData) (hc : ¬ writeAngleCond cMin cMax h.pointFields) :
    (fillMinMaxData cMin cMax h b).pointFields.angleMinimum = h.pointFields.angleMinimum := by
  rw [fillMinMaxData_eq]; simp [hc]

lemma fill_angleMaximum_of_not_cond (cMin cMax : ℚ) (h : Data3D)
    (b : Data3DPointsData) (hc : ¬ writeAngleCond cMin cMax h.pointFields) :
    (fillMinMaxData cMin cMax h b).pointFields.angleMaximum = h.pointFields.angleMaximum := by
  rw [fillMinMaxData_eq]; simp [hc]

lemma fill_timeMinimum_of_cond (cMin cMax : ℚ) (h : Data3D)
    (b : Data3DPointsData) (hc : writeTimeStampCond cMin cMax h.pointFields) :
    (fillMinMaxData cMin cMax h b).pointFields.timeMinimum =
      (timeSamples h b).foldl min doubleMax := by
  rw [fillMinMaxData_eq]; simp [hc]

lemma fill_timeMaximum_of_cond (cMin cMax : ℚ) (h : Data3D)
    (b : Data3DPointsData) (hc : writeTimeStampCond cMin cMax h.pointFields) :
    (fillMinMaxData cMin cMax h b).pointFields.timeMaximum =
      (timeSamples h b).foldl max doubleLowest := by
  rw [fillMinMaxData_eq]; simp [hc]

lemma fill_timeMinimum_of_not_cond (cMin cMax : ℚ) (h : Data3D)
    (b : Data3DPointsData) (hc : ¬ writeTimeStampCond cMin cMax h.pointFields) :
    (fillMinMaxData cMin cMax h b).pointFields.timeMinimum = h.pointFields.timeMinimum := by
  rw [fillMinMaxData_eq]; simp [hc]

lemma fill_timeMaximum_of_not_cond (cMin cMax : ℚ) (h : Data3D)
    (b : Data3DPointsData) (hc : ¬ writeTimeStampCond cMin cMax h.pointFields) :
    (fillMinMaxData cMin cMax h b).pointFields.timeMaximum = h.pointFields.timeMaximum := by
  rw [fillMinMaxData_eq]; simp [hc]

lemma fill_intensityLimits_of_cond (cMin cMax : ℚ) (h : Data3D)
    (b : Data3DPointsData) (hc : writeIntensityCond h) :
    (fillMinMaxData cMin cMax h b).intensityLimits =
      { intensityMinimum := (intensitySamples h b).foldl min doubleMax
        intensityMaximum := (intensitySamples h b).foldl max doubleLowest } := by
  rw [fillMinMaxData_eq]; simp [hc]

lemma fill_intensityLimits_of_not_cond (cMin cMax : ℚ) (h : Data3D)
    (b : Data3DPointsData) (hc : ¬ writeIntensityCond h) :
    (fillMinMaxData cMin cMax h b).intensityLimits = h.intensityLimits := by
  rw [fillMinMaxData_eq]; simp [hc]

/-! ### Claimed properties of the bounds pass -/

/-- For each of the four quantity families: if its write precondition
held on the incoming header, then the written minimum is ≤ every
contributing sample, the written maximum is ≥ every contributing sample,
and — whenever the family has any contributing sample — the written
minimum and maximum are themselves contributing samples, i.e. the exact
extrema. -/
def fillBoundsExtremaProp (cMin cMax : ℚ) (h : Data3D)
    (b : Data3DPointsData) : Prop :=
  (writePointRangeCond cMin cMax h.pointFields →
    (∀ x ∈ pointRangeSamples h b,
      (fillMinMaxData cMin cMax h b).pointFields.pointRangeMinimum ≤ x ∧
        x ≤ (fillMinMaxData cMin cMax h b).pointFields.pointRangeMaximum) ∧
    (pointRangeSamples h b ≠ [] →
      (fillMinMaxData cMin cMax h b).pointFields.pointRangeMinimum ∈
          pointRangeSamples h b ∧
        (fillMinMaxData cMin cMax h b).pointFields.pointRangeMaximum ∈
          pointRangeSamples h b)) ∧
  (writeAngleCond cMin cMax h.pointFields →
    (∀ x ∈ angleSamples h b,
      (fillMinMaxData cMin cMax h b).pointFields.angleMinimum ≤ x ∧
        x ≤ (fillMinMaxData cMin cMax h b).pointFields.angleMaximum) ∧
    (angleSamples h b ≠ [] →
      (fillMinMaxData cMin cMax h b).pointFields.angleMinimum ∈
          angleSamples h b ∧
        (fillMinMaxData cMin cMax h b).pointFields.angleMaximum ∈
          angleSamples h b)) ∧
  (writeIntensityCond h →
    (∀ x ∈ intensitySamples h b,
      (fillMinMaxData cMin cMax h b).intensityLimits.intensityMinimum ≤ x ∧
        x ≤ (fillMinMaxData cMin cMax h b).intensityLimits.intensityMaximum) ∧
    (intensitySamples h b ≠ [] →
      (fillMinMaxData cMin cMax h b).intensityLimits.intensityMinimum ∈
          intensitySamples h b ∧
        (fillMinMaxData cMin cMax h b).intensityLimits.intensityMaximum ∈
          intensitySamples h b)) ∧
  (writeTimeStampCond cMin cMax h.pointFields →
    (∀ x ∈ timeSamples h b,
      (fillMinMaxData cMin cMax h b).pointFields.timeMinimum ≤ x ∧
        x ≤ (fillMinMaxData cMin cMax h b).pointFields.timeMaximum) ∧
    (timeSamples h b ≠ [] →
      (fillMinMaxData cMin cMax h b).pointFields.timeMinimum ∈
          timeSamples h b ∧
        (fillMinMaxData cMin cMax h b).pointFields.timeMaximum ∈
          timeSamples h b))

/-- C1: for every header and point-buffer set in which every scanned
coordinate is finite (modelled: every contributing sample lies within the
representable range of its C++ type, `[cMin, cMax]` for the
coordinate-typed families, the double range for intensity and time) and
the point count is at least one: after `_fillMinMaxData`, each family
whose write precondition held has written minimum ≤ every contributing
sample ≤ written maximum, and the written bounds equal the exact least
and greatest contributing samples. -/
theorem fillMinMaxData_writes_exact_extrema (cMin cMax : ℚ) (h : Data3D)
    (b : Data3DPointsData)
    (hn : 1 ≤ h.pointCount)
    (hpr : ∀ x ∈ pointRangeSamples h b, cMin ≤ x ∧ x ≤ cMax)
    (hang : ∀ x ∈ angleSamples h b, cMin ≤ x ∧ x ≤ cMax)
    (hint : ∀ x ∈ intensitySamples h b, doubleLowest ≤ x ∧ x ≤ doubleMax)
    (htim : ∀ x ∈ timeSamples h b, doubleLowest ≤ x ∧ x ≤ doubleMax) :
    fillBoundsExtremaProp cMin cMax h b := by
  clear hn
  unfold fillBoundsExtremaProp
  refine ⟨fun cw => ?_, fun ca => ?_, fun ci => ?_, fun ct => ?_⟩
  · rw [fill_pointRangeMinimum_of_cond cMin cMax h b cw,
      fill_pointRangeMaximum_of_cond cMin cMax h b cw]
    exact ⟨fun x hx => ⟨foldl_min_le_mem hx _, foldl_max_mem_le hx _⟩,
      fun hne => ⟨foldl_min_mem_of_le hne (fun x hx => (hpr x hx).2),
        foldl_max_mem_of_le hne (fun x hx => (hpr x hx).1)⟩⟩
  · rw [fill_angleMinimum_of_cond cMin cMax h b ca,
      fill_angleMaximum_of_cond cMin cMax h b ca]
    exact ⟨fun x hx => ⟨foldl_min_le_mem hx _, foldl_max_mem_le hx _⟩,
      fun hne => ⟨foldl_min_mem_of_le hne (fun x hx => (hang x hx).2),
        foldl_max_mem_of_le hne (fun x hx => (hang x hx).1)⟩⟩
  · rw [fill_intensityLimits_of_cond cMin cMax h b ci]
    exact ⟨fun x hx => ⟨foldl_min_le_mem hx _, foldl_max_mem_le hx _⟩,
      fun hne => ⟨foldl_min_mem_of_le hne (fun x hx => (hint x hx).2),
        foldl_max_mem_of_le hne (fun x hx => (hint x hx).1)⟩⟩
  · rw [fill_timeMinimum_of_cond cMin cMax h b ct,
      fill_timeMaximum_of_cond cMin cMax h b ct]
    exact ⟨fun x hx => ⟨foldl_min_le_mem hx _, foldl_max_mem_le hx _⟩,
      fun hne => ⟨foldl_min_mem_of_le hne (fun x hx => (htim x hx).2),
        foldl_max_mem_of_le hne (fun x hx => (htim x hx).1)⟩⟩

/-- A concrete header with all four families active and at their
sentinels, at the single-precision instantiation's extremes. -/
def wHeaderAll : Data3D where
  pointCount := 2
  pointFields := {
    cartesianXField := true
    cartesianYField := true
    cartesianZField := true
    sphericalRangeField := true
    sphericalAzimuthField := true
    sphericalElevationField := true
    intensityField := true
    timeStampField := true
    pointRangeNodeType := NumericalNodeType.ScaledInteger
    pointRangeMinimum := floatLowest
    pointRangeMaximum := floatMax
    angleNodeType := NumericalNodeType.ScaledInteger
    angleMinimum := floatLowest
    angleMaximum := floatMax
    timeNodeType := NumericalNodeType.ScaledInteger
    timeMinimum := floatLowest
    timeMaximum := floatMax }
  intensityLimits := {}

/-- Concrete buffers for the witness header. -/
def wBuffersAll : Data3DPointsData where
  cartesianX := fun i => if i = 0 then 5 else 9
  cartesianY := fun _ => 2
  cartesianZ := fun _ => 3
  sphericalRange := fun _ => 4
  sphericalAzimuth := fun i => if i = 0 then 6 else (-6)
  sphericalElevation := fun _ => 1
  intensity := fun _ => 7
  timeStamp := fun i => if i = 0 then 8 else (-8)

theorem fillMinMaxData_writes_exact_extrema_witness :
    fillBoundsExtremaProp floatLowest floatMax wHeaderAll wBuffersAll :=
  fillMinMaxData_writes_exact_extrema floatLowest floatMax wHeaderAll
    wBuffersAll (by decide) (by decide) (by decide) (by decide) (by decide)

/-- The untouched-parts guarantee of the pass: every family whose write
precondition is false keeps its header bound fields exactly, and no
header field outside the four families' bounds fields changes.  (The
point buffers are taken by const reference in the C++ and the embedding
correspondingly returns only the header, so buffer immutability is
enforced by the shape of `fillMinMaxData` itself.) -/
def fillFrameProp (cMin cMax : ℚ) (h : Data3D) (b : Data3DPointsData) :
    Prop :=
  (¬ writePointRangeCond cMin cMax h.pointFields →
    (fillMinMaxData cMin cMax h b).pointFields.pointRangeMinimum =
        h.pointFields.pointRangeMinimum ∧
      (fillMinMaxData cMin cMax h b).pointFields.pointRangeMaximum =
        h.pointFields.pointRangeMaximum) ∧
  (¬ writeAngleCond cMin cMax h.pointFields →
    (fillMinMaxData cMin cMax h b).pointFields.angleMinimum =
        h.pointFields.angleMinimum ∧
      (fillMinMaxData cMin cMax h b).pointFields.angleMaximum =
        h.pointFields.angleMaximum) ∧
  (¬ writeIntensityCond h →
    (fillMinMaxData cMin cMax h b).intensityLimits = h.intensityLimits) ∧
  (¬ writeTimeStampCond cMin cMax h.pointFields →
    (fillMinMaxData cMin cMax h b).pointFields.timeMinimum =
        h.pointFields.timeMinimum ∧
      (fillMinMaxData cMin cMax h b).pointFields.timeMaximum =
        h.pointFields.timeMaximum) ∧
  (fillMinMaxData cMin cMax h b).pointCount = h.pointCount ∧
  (fillMinMaxData cMin cMax h b).otherFields = h.otherFields ∧
  (fillMinMaxData cMin cMax h b).pointFields.cartesianXField =
    h.pointFields.cartesianXField ∧
  (fillMinMaxData cMin cMax h b).pointFields.cartesianYField =
    h.pointFields.cartesianYField ∧
  (fillMinMaxData cMin cMax h b).pointFields.cartesianZField =
    h.pointFields.cartesianZField ∧
  (fillMinMaxData cMin cMax h b).pointFields.sphericalRangeField =
    h.pointFields.sphericalRangeField ∧
  (fillMinMaxData cMin cMax h b).pointFields.sphericalAzimuthField =
    h.pointFields.sphericalAzimuthField ∧
  (fillMinMaxData cMin cMax h b).pointFields.sphericalElevationField =
    h.pointFields.sphericalElevationField ∧
  (fillMinMaxData cMin cMax h b).pointFields.intensityField =
    h.pointFields.intensityField ∧
  (fillMinMaxData cMin cMax h b).pointFields.timeStampField =
    h.pointFields.timeStampField ∧
  (fillMinMaxData cMin cMax h b).pointFields.pointRangeNodeType =
    h.pointFields.pointRangeNodeType ∧
  (fillMinMaxData cMin cMax h b).pointFields.angleNodeType =
    h.pointFields.angleNodeType ∧
  (fillMinMaxData cMin cMax h b).pointFields.timeNodeType =
    h.pointFields.timeNodeType

/-- C2: `_fillMinMaxData` never mutates the point buffers (they are read
through a const reference, so the embedding's result contains no buffer
component at all), leaves the bound fields of every family whose write
precondition is false exactly unchanged — in particular when the header
arrives with bounds already set to non-sentinel values — regardless of
buffer contents, and modifies no header field outside the four families'
bounds fields. -/
theorem fillMinMaxData_frame (cMin cMax : ℚ) (h : Data3D)
    (b : Data3DPointsData) : fillFrameProp cMin cMax h b := by
  obtain ⟨e1, e2, e3, e4, e5, e6, e7, e8, e9, e10, e11⟩ :=
    fillMinMaxData_config cMin cMax h b
  exact ⟨fun hc => ⟨fill_pointRangeMinimum_of_not_cond cMin cMax h b hc,
      fill_pointRangeMaximum_of_not_cond cMin cMax h b hc⟩,
    fun hc => ⟨fill_angleMinimum_of_not_cond cMin cMax h b hc,
      fill_angleMaximum_of_not_cond cMin cMax h b hc⟩,
    fun hc => fill_intensityLimits_of_not_cond cMin cMax h b hc,
    fun hc => ⟨fill_timeMinimum_of_not_cond cMin cMax h b hc,
      fill_timeMaximum_of_not_cond cMin cMax h b hc⟩,
    fillMinMaxData_pointCount cMin cMax h b,
    fillMinMaxData_otherFields cMin cMax h b,
    e1, e2, e3, e4, e5, e6, e7, e8, e9, e10, e11⟩

/-- A header whose bounds all arrived caller-set (non-sentinel), so every
family's write precondition is false. -/
def wHeaderPreset : Data3D where
  pointCount := 2
  pointFields := {
    cartesianXField := true
    cartesianYField := true
    cartesianZField := true
    sphericalRangeField := true
    sphericalAzimuthField := true
    sphericalElevationField := true
    intensityField := true
    timeStampField := true
    pointRangeNodeType := NumericalNodeType.ScaledInteger
    pointRangeMinimum := -100
    pointRangeMaximum := 100
    angleNodeType := NumericalNodeType.ScaledInteger
    angleMinimum := -4
    angleMaximum := 4
    timeNodeType := NumericalNodeType.ScaledInteger
    timeMinimum := 0
    timeMaximum := 1000 }
  intensityLimits := { intensityMinimum := 0, intensityMaximum := 1 }

theorem fillMinMaxData_frame_witness :
    fillFrameProp floatLowest floatMax wHeaderPreset wBuffersAll :=
  fillMinMaxData_frame floatLowest floatMax wHeaderPreset wBuffersAll

/-! ### Idempotence -/

lemma writePointRangeCond_fill_imp (cMin cMax : ℚ) (h : Data3D)
    (b : Data3DPointsData)
    (hc : writePointRangeCond cMin cMax
      (fillMinMaxData cMin cMax h b).pointFields) :
    writePointRangeCond cMin cMax h.pointFields := by
  by_contra hw
  obtain ⟨c1, c2, c3⟩ := hc
  rw [fill_pointRangeMinimum_of_not_cond cMin cMax h b hw] at c2
  rw [fill_pointRangeMaximum_of_not_cond cMin cMax h b hw] at c3
  have e9 := (fillMinMaxData_config cMin cMax h b).2.2.2.2.2.2.2.2.1
  rw [e9] at c1
  exact hw ⟨c1, c2, c3⟩

lemma writeAngleCond_fill_imp (cMin cMax : ℚ) (h : Data3D)
    (b : Data3DPointsData)
    (hc : writeAngleCond cMin cMax
      (fillMinMaxData cMin cMax h b).pointFields) :
    writeAngleCond cMin cMax h.pointFields := by
  by_contra hw
  obtain ⟨c1, c2, c3⟩ := hc
  rw [fill_angleMinimum_of_not_cond cMin cMax h b hw] at c2
  rw [fill_angleMaximum_of_not_cond cMin cMax h b hw] at c3
  have e10 := (fillMinMaxData_config cMin cMax h b).2.2.2.2.2.2.2.2.2.1
  rw [e10] at c1
  exact hw ⟨c1, c2, c3⟩

lemma writeIntensityCond_fill_imp (cMin cMax : ℚ) (h : Data3D)
    (b : Data3DPointsData)
    (hc : writeIntensityCond (fillMinMaxData cMin cMax h b)) :
    writeIntensityCond h := by
  by_contra hw
  obtain ⟨c1, c2⟩ := hc
  rw [fill_intensityLimits_of_not_cond cMin cMax h b hw] at c2
  have e7 := (fillMinMaxData_config cMin cMax h b).2.2.2.2.2.2.1
  rw [e7] at c1
  exact hw ⟨c1, c2⟩

lemma writeTimeStampCond_fill_imp (cMin cMax : ℚ) (h : Data3D)
    (b : Data3DPointsData)
    (hc : writeTimeStampCond cMin cMax
      (fillMinMaxData cMin cMax h b).pointFields) :
    writeTimeStampCond cMin cMax h.pointFields := by
  by_contra hw
  obtain ⟨c1, c2, c3, c4⟩ := hc
  rw [fill_timeMinimum_of_not_cond cMin cMax h b hw] at c3
  rw [fill_timeMaximum_of_not_cond cMin cMax h b hw] at c4
  have e8 := (fillMinMaxData_config cMin cMax h b).2.2.2.2.2.2.2.1
  have e11 := (fillMinMaxData_config cMin cMax h b).2.2.2.2.2.2.2.2.2.2
  rw [e8] at c1
  rw [e11] at c2
  exact hw ⟨c1, c2, c3, c4⟩

attribute [ext] IntensityLimits Data3DPointFields Data3D

/-- C8: `_fillMinMaxData` is idempotent on the header: running the pass a
second time with the same buffers returns the header unchanged.  Either a
family's first run left it untouched (then the second run's precondition
is false for the same reason), or the first run wrote computed bounds —
and then the second run either finds them non-sentinel (precondition now
false, untouched) or recomputes the identical values from the identical
samples. -/
theorem fillMinMaxData_idempotent (cMin cMax : ℚ) (h : Data3D)
    (b : Data3DPointsData) :
    fillMinMaxData cMin cMax (fillMinMaxData cMin cMax h b) b =
      fillMinMaxData cMin cMax h b := by
  have hprMin : (fillMinMaxData cMin cMax (fillMinMaxData cMin cMax h b)
      b).pointFields.pointRangeMinimum =
      (fillMinMaxData cMin cMax h b).pointFields.pointRangeMinimum := by
    by_cases hc : writePointRangeCond cMin cMax
      (fillMinMaxData cMin cMax h b).pointFields
    · have hw := writePointRangeCond_fill_imp cMin cMax h b hc
      rw [fill_pointRangeMinimum_of_cond cMin cMax _ b hc,
        pointRangeSamples_fill,
        fill_pointRangeMinimum_of_cond cMin cMax h b hw]
    · exact fill_pointRangeMinimum_of_not_cond cMin cMax _ b hc
  have hprMax : (fillMinMaxData cMin cMax (fillMinMaxData cMin cMax h b)
      b).pointFields.pointRangeMaximum =
      (fillMinMaxData cMin cMax h b).pointFields.pointRangeMaximum := by
    by_cases hc : writePointRangeCond cMin cMax
      (fillMinMaxData cMin cMax h b).pointFields
    · have hw := writePointRangeCond_fill_imp cMin cMax h b hc
      rw [fill_pointRangeMaximum_of_cond cMin cMax _ b hc,
        pointRangeSamples_fill,
        fill_pointRangeMaximum_of_cond cMin cMax h b hw]
    · exact fill_pointRangeMaximum_of_not_cond cMin cMax _ b hc
  have hangMin : (fillMinMaxData cMin cMax (fillMinMaxData cMin cMax h b)
      b).pointFields.angleMinimum =
      (fillMinMaxData cMin cMax h b).pointFields.angleMinimum := by
    by_cases hc : writeAngleCond cMin cMax
      (fillMinMaxData cMin cMax h b).pointFields
    · have hw := writeAngleCond_fill_imp cMin cMax h b hc
      rw [fill_angleMinimum_of_cond cMin cMax _ b hc, angleSamples_fill,
        fill_angleMinimum_of_cond cMin cMax h b hw]
    · exact fill_angleMinimum_of_not_cond cMin cMax _ b hc
  have hangMax : (fillMinMaxData cMin cMax (fillMinMaxData cMin cMax h b)
      b).pointFields.angleMaximum =
      (fillMinMaxData cMin cMax h b).pointFields.angleMaximum := by
    by_cases hc : writeAngleCond cMin cMax
      (fillMinMaxData cMin cMax h b).pointFields
    · have hw := writeAngleCond_fill_imp cMin cMax h b hc
      rw [fill_angleMaximum_of_cond cMin cMax _ b hc, angleSamples_fill,
        fill_angleMaximum_of_cond cMin cMax h b hw]
    · exact fill_angleMaximum_of_not_cond cMin cMax _ b hc
  have htMin : (fillMinMaxData cMin cMax (fillMinMaxData cMin cMax h b)
      b).pointFields.timeMinimum =
      (fillMinMaxData cMin cMax h b).pointFields.timeMinimum := by
    by_cases hc : writeTimeStampCond cMin cMax
      (fillMinMaxData cMin cMax h b).pointFields
    · have hw := writeTimeStampCond_fill_imp cMin cMax h b hc
      rw [fill_timeMinimum_of_cond cMin cMax _ b hc, timeSamples_fill,
        fill_timeMinimum_of_cond cMin cMax h b hw]
    · exact fill_timeMinimum_of_not_cond cMin cMax _ b hc
  have htMax : (fillMinMaxData cMin cMax (fillMinMaxData cMin cMax h b)
      b).pointFields.timeMaximum =
      (fillMinMaxData cMin cMax h b).pointFields.timeMaximum := by
    by_cases hc : writeTimeStampCond cMin cMax
      (fillMinMaxData cMin cMax h b).pointFields
    · have hw := writeTimeStampCond_fill_imp cMin cMax h b hc
      rw [fill_timeMaximum_of_cond cMin cMax _ b hc, timeSamples_fill,
        fill_timeMaximum_of_cond cMin cMax h b hw]
    · exact fill_timeMaximum_of_not_cond cMin cMax _ b hc
  have hil : (fillMinMaxData cMin cMax (fillMinMaxData cMin cMax h b)
      b).intensityLimits = (fillMinMaxData cMin cMax h b).intensityLimits := by
    by_cases hc : writeIntensityCond (fillMinMaxData cMin cMax h b)
    · have hw := writeIntensityCond_fill_imp cMin cMax h b hc
      rw [fill_intensityLimits_of_cond cMin cMax _ b hc,
        intensitySamples_fill,
        fill_intensityLimits_of_cond cMin cMax h b hw]
    · exact fill_intensityLimits_of_not_cond cMin cMax _ b hc
  obtain ⟨e1, e2, e3, e4, e5, e6, e7, e8, e9, e10, e11⟩ :=
    fillMinMaxData_config cMin cMax (fillMinMaxData cMin cMax h b) b
  exact Data3D.ext
    (fillMinMaxData_pointCount cMin cMax (fillMinMaxData cMin cMax h b) b)
    (Data3DPointFields.ext e1 e2 e3 e4 e5 e6 e7 e8 e9 hprMin hprMax e10
      hangMin hangMax e11 htMin htMax)
    hil
    (fillMinMaxData_otherFields cMin cMax (fillMinMaxData cMin cMax h b) b)

/-- C3: when the point-range precondition holds and both the Cartesian
fields and the spherical-range field are enabled, the pass accumulates
the Cartesian x, y, z samples and the spherical-range samples into one
single minimum/maximum pair — the fold over the merged per-point list —
and writes that one pair as the point-range statistic. -/
theorem fillMinMaxData_merges_cartesian_and_spherical (cMin cMax : ℚ)
    (h : Data3D) (b : Data3DPointsData)
    (hc : writePointRangeCond cMin cMax h.pointFields)
    (hx : h.pointFields.cartesianXField = true)
    (hs : h.pointFields.sphericalRangeField = true) :
    (fillMinMaxData cMin cMax h b).pointFields.pointRangeMinimum =
      ((List.range h.pointCount.toNat).flatMap (fun i =>
        [b.cartesianX i, b.cartesianY i, b.cartesianZ i,
          b.sphericalRange i])).foldl min cMax ∧
    (fillMinMaxData cMin cMax h b).pointFields.pointRangeMaximum =
      ((List.range h.pointCount.toNat).flatMap (fun i =>
        [b.cartesianX i, b.cartesianY i, b.cartesianZ i,
          b.sphericalRange i])).foldl max cMin := by
  rw [fill_pointRangeMinimum_of_cond cMin cMax h b hc,
    fill_pointRangeMaximum_of_cond cMin cMax h b hc]
  unfold pointRangeSamples prContribution
  rw [hx, hs]
  exact ⟨rfl, rfl⟩

theorem fillMinMaxData_merges_cartesian_and_spherical_witness :
    (fillMinMaxDataFloat wHeaderAll
        wBuffersAll).pointFields.pointRangeMinimum =
      ((List.range wHeaderAll.pointCount.toNat).flatMap (fun i =>
        [wBuffersAll.cartesianX i, wBuffersAll.cartesianY i,
          wBuffersAll.cartesianZ i,
          wBuffersAll.sphericalRange i])).foldl min floatMax ∧
    (fillMinMaxDataFloat wHeaderAll
        wBuffersAll).pointFields.pointRangeMaximum =
      ((List.range wHeaderAll.pointCount.toNat).flatMap (fun i =>
        [wBuffersAll.cartesianX i, wBuffersAll.cartesianY i,
          wBuffersAll.cartesianZ i,
          wBuffersAll.sphericalRange i])).foldl max floatLowest :=
  fillMinMaxData_merges_cartesian_and_spherical floatLowest floatMax
    wHeaderAll wBuffersAll (by decide) (by decide) (by decide)

/-- Time bounds are written (to the fold of the time samples over the
double-extreme initial accumulators) iff `writeTimeStampCond` holds for
the given coordinate-type extremes; otherwise they are left exactly
unchanged. -/
def timeBoundsResolvedProp (cMin cMax : ℚ) (h : Data3D)
    (b : Data3DPointsData) : Prop :=
  (writeTimeStampCond cMin cMax h.pointFields →
    (fillMinMaxData cMin cMax h b).pointFields.timeMinimum =
        (timeSamples h b).foldl min doubleMax ∧
      (fillMinMaxData cMin cMax h b).pointFields.timeMaximum =
        (timeSamples h b).foldl max doubleLowest) ∧
  (¬ writeTimeStampCond cMin cMax h.pointFields →
    (fillMinMaxData cMin cMax h b).pointFields.timeMinimum =
        h.pointFields.timeMinimum ∧
      (fillMinMaxData cMin cMax h b).pointFields.timeMaximum =
        h.pointFields.timeMaximum)

/-- C4: for both buffer instantiations (`fillMinMaxDataFloat` and
`fillMinMaxDataDouble` are definitionally `fillMinMaxData` at the float
and double extremes), the pass computes and writes the time bounds iff
the time-stamp field is enabled, the time quantity is stored as scaled
integer, and the header's time bounds still equal the sentinel extremes
of the instantiation's coordinate numeric type (`writeTimeStampCond`);
when the precondition fails the time bounds are left exactly
unchanged. -/
theorem fillMinMaxData_time_bounds_iff (h : Data3D)
    (b : Data3DPointsData) :
    timeBoundsResolvedProp floatLowest floatMax h b ∧
      timeBoundsResolvedProp doubleLowest doubleMax h b :=
  ⟨⟨fun hc => ⟨fill_timeMinimum_of_cond floatLowest floatMax h b hc,
      fill_timeMaximum_of_cond floatLowest floatMax h b hc⟩,
    fun hc => ⟨fill_timeMinimum_of_not_cond floatLowest floatMax h b hc,
      fill_timeMaximum_of_not_cond floatLowest floatMax h b hc⟩⟩,
   ⟨fun hc => ⟨fill_timeMinimum_of_cond doubleLowest doubleMax h b hc,
      fill_timeMaximum_of_cond doubleLowest doubleMax h b hc⟩,
    fun hc => ⟨fill_timeMinimum_of_not_cond doubleLowest doubleMax h b hc,
      fill_timeMaximum_of_not_cond doubleLowest doubleMax h b hc⟩⟩⟩

theorem fillMinMaxData_time_bounds_iff_witness :
    timeBoundsResolvedProp floatLowest floatMax wHeaderAll wBuffersAll ∧
      timeBoundsResolvedProp doubleLowest doubleMax wHeaderAll
        wBuffersAll :=
  fillMinMaxData_time_bounds_iff wHeaderAll wBuffersAll

/-! ### The angle family and disabled azimuth/elevation fields -/

/-- A header whose angle family precondition holds while the azimuth and
elevation enable flags are both false (every other family disabled). -/
def wHeaderAngleOff : Data3D where
  pointCount := 1
  pointFields := {
    cartesianXField := false
    cartesianYField := false
    cartesianZField := false
    sphericalRangeField := false
    sphericalAzimuthField := false
    sphericalElevationField := false
    intensityField := false
    timeStampField := false
    pointRangeNodeType := NumericalNodeType.Float
    pointRangeMinimum := 0
    pointRangeMaximum := 0
    angleNodeType := NumericalNodeType.ScaledInteger
    angleMinimum := floatLowest
    angleMaximum := floatMax
    timeNodeType := NumericalNodeType.Float
    timeMinimum := 0
    timeMaximum := 0 }
  intensityLimits := {}

/-- Buffers with a distinctive azimuth value. -/
def wBuffersAngleA : Data3DPointsData where
  cartesianX := fun _ => 0
  cartesianY := fun _ => 0
  cartesianZ := fun _ => 0
  sphericalRange := fun _ => 0
  sphericalAzimuth := fun _ => 5
  sphericalElevation := fun _ => 7
  intensity := fun _ => 0
  timeStamp := fun _ => 0

/-- The same buffers with only the azimuth array changed. -/
def wBuffersAngleB : Data3DPointsData :=
  { wBuffersAngleA with sphericalAzimuth := fun _ => 11 }

/-- C5 counterexample: the azimuth and elevation enable flags are false,
the two buffer sets differ only in the azimuth array, yet the pass
produces different headers — the angle scan reads the azimuth buffer even
though the field is disabled, refuting "only when those fields are
enabled". -/
theorem fillMinMaxData_reads_disabled_angle_buffers :
    wHeaderAngleOff.pointFields.sphericalAzimuthField = false ∧
    wHeaderAngleOff.pointFields.sphericalElevationField = false ∧
    wBuffersAngleB =
      { wBuffersAngleA with sphericalAzimuth := fun _ => 11 } ∧
    fillMinMaxDataFloat wHeaderAngleOff wBuffersAngleA ≠
      fillMinMaxDataFloat wHeaderAngleOff wBuffersAngleB := by
  have hc : writeAngleCond floatLowest floatMax
      wHeaderAngleOff.pointFields := ⟨rfl, rfl, rfl⟩
  have hA : (fillMinMaxData floatLowest floatMax wHeaderAngleOff
      wBuffersAngleA).pointFields.angleMinimum = 5 := by
    rw [fill_angleMinimum_of_cond floatLowest floatMax wHeaderAngleOff
      wBuffersAngleA hc]
    have hl : angleSamples wHeaderAngleOff wBuffersAngleA = [5, 7] := rfl
    rw [hl]
    show min (min floatMax 5) 7 = 5
    rw [min_eq_right (by decide : (5 : ℚ) ≤ floatMax),
      min_eq_left (by decide : (5 : ℚ) ≤ 7)]
  have hB : (fillMinMaxData floatLowest floatMax wHeaderAngleOff
      wBuffersAngleB).pointFields.angleMinimum = 7 := by
    rw [fill_angleMinimum_of_cond floatLowest floatMax wHeaderAngleOff
      wBuffersAngleB hc]
    have hl : angleSamples wHeaderAngleOff wBuffersAngleB = [11, 7] := rfl
    rw [hl]
    show min (min floatMax 11) 7 = 7
    rw [min_eq_right (by decide : (11 : ℚ) ≤ floatMax),
      min_eq_right (by decide : (7 : ℚ) ≤ 11)]
  refine ⟨rfl, rfl, rfl, fun he => ?_⟩
  have h5 : (fillMinMaxData floatLowest floatMax wHeaderAngleOff
      wBuffersAngleA).pointFields.angleMinimum =
      (fillMinMaxData floatLowest floatMax wHeaderAngleOff
        wBuffersAngleB).pointFields.angleMinimum :=
    congrArg (fun d => d.pointFields.angleMinimum) he
  rw [hA, hB] at h5
  exact absurd h5 (by norm_num)

/-- The amended behaviour of the angle family: processed iff the angle
quantity is stored as scaled integer with both bounds at the sentinel
extremes; the scan then folds exactly the azimuth and elevation samples —
regardless of the azimuth/elevation enable flags — and the angle result
depends on no buffer other than those two. -/
def angleScanProp (cMin cMax : ℚ) (h : Data3D) (b : Data3DPointsData) :
    Prop :=
  (writeAngleCond cMin cMax h.pointFields →
    (fillMinMaxData cMin cMax h b).pointFields.angleMinimum =
        (angleSamples h b).foldl min cMax ∧
      (fillMinMaxData cMin cMax h b).pointFields.angleMaximum =
        (angleSamples h b).foldl max cMin) ∧
  (¬ writeAngleCond cMin cMax h.pointFields →
    (fillMinMaxData cMin cMax h b).pointFields.angleMinimum =
        h.pointFields.angleMinimum ∧
      (fillMinMaxData cMin cMax h b).pointFields.angleMaximum =
        h.pointFields.angleMaximum) ∧
  (∀ b2 : Data3DPointsData,
    b2.sphericalAzimuth = b.sphericalAzimuth →
    b2.sphericalElevation = b.sphericalElevation →
    (fillMinMaxData cMin cMax h b2).pointFields.angleMinimum =
        (fillMinMaxData cMin cMax h b).pointFields.angleMinimum ∧
      (fillMinMaxData cMin cMax h b2).pointFields.angleMaximum =
        (fillMinMaxData cMin cMax h b).pointFields.angleMaximum)

/-- C5 amended: the angular family is processed (azimuth and elevation
buffers scanned and `angleMinimum`/`angleMaximum` written) iff the angle
quantity is stored as scaled integer with both angle bounds at the
sentinel extremes; its scan reads exactly the `sphericalAzimuth` and
`sphericalElevation` buffers, but it does so whenever that precondition
holds, regardless of whether those fields are enabled. -/
theorem fillMinMaxData_angle_scan (cMin cMax : ℚ) (h : Data3D)
    (b : Data3DPointsData) : angleScanProp cMin cMax h b := by
  have hsamp : ∀ b2 : Data3DPointsData,
      b2.sphericalAzimuth = b.sphericalAzimuth →
      b2.sphericalElevation = b.sphericalElevation →
      angleSamples h b2 = angleSamples h b := by
    intro b2 ha he
    unfold angleSamples
    rw [ha, he]
  refine ⟨fun hc => ⟨fill_angleMinimum_of_cond cMin cMax h b hc,
      fill_angleMaximum_of_cond cMin cMax h b hc⟩,
    fun hc => ⟨fill_angleMinimum_of_not_cond cMin cMax h b hc,
      fill_angleMaximum_of_not_cond cMin cMax h b hc⟩,
    fun b2 ha he => ?_⟩
  by_cases hc : writeAngleCond cMin cMax h.pointFields
  · rw [fill_angleMinimum_of_cond cMin cMax h b2 hc,
      fill_angleMinimum_of_cond cMin cMax h b hc,
      fill_angleMaximum_of_cond cMin cMax h b2 hc,
      fill_angleMaximum_of_cond cMin cMax h b hc, hsamp b2 ha he]
    exact ⟨rfl, rfl⟩
  · rw [fill_angleMinimum_of_not_cond cMin cMax h b2 hc,
      fill_angleMinimum_of_not_cond cMin cMax h b hc,
      fill_angleMaximum_of_not_cond cMin cMax h b2 hc,
      fill_angleMaximum_of_not_cond cMin cMax h b hc]
    exact ⟨rfl, rfl⟩

theorem fillMinMaxData_angle_scan_witness :
    angleScanProp floatLowest floatMax wHeaderAngleOff wBuffersAngleA :=
  fillMinMaxData_angle_scan floatLowest floatMax wHeaderAngleOff
    wBuffersAngleA

/-! ### Ordering of resolved bounds -/

/-- A header with zero points whose point-range precondition holds. -/
def wHeaderEmpty : Data3D where
  pointCount := 0
  pointFields := {
    cartesianXField := true
    cartesianYField := true
    cartesianZField := true
    sphericalRangeField := false
    sphericalAzimuthField := false
    sphericalElevationField := false
    intensityField := false
    timeStampField := false
    pointRangeNodeType := NumericalNodeType.ScaledInteger
    pointRangeMinimum := floatLowest
    pointRangeMaximum := floatMax
    angleNodeType := NumericalNodeType.Float
    angleMinimum := 0
    angleMaximum := 0
    timeNodeType := NumericalNodeType.Float
    timeMinimum := 0
    timeMaximum := 0 }
  intensityLimits := {}

/-- C9 counterexample: with `pointCount = 0` the point-range family's
write precondition holds and the pass resolves (writes) its bounds, but
it writes minimum = `floatMax` and maximum = `floatLowest` — the swapped
initial accumulators — so the resolved pair violates minimum ≤
maximum. -/
theorem fillMinMaxData_zero_points_swapped_bounds :
    writePointRangeCond floatLowest floatMax wHeaderEmpty.pointFields ∧
    (fillMinMaxDataFloat wHeaderEmpty
        wBuffersAngleA).pointFields.pointRangeMinimum = floatMax ∧
    (fillMinMaxDataFloat wHeaderEmpty
        wBuffersAngleA).pointFields.pointRangeMaximum = floatLowest ∧
    ¬ ((fillMinMaxDataFloat wHeaderEmpty
        wBuffersAngleA).pointFields.pointRangeMinimum ≤
      (fillMinMaxDataFloat wHeaderEmpty
        wBuffersAngleA).pointFields.pointRangeMaximum) := by
  have hc : writePointRangeCond floatLowest floatMax
      wHeaderEmpty.pointFields := ⟨rfl, rfl, rfl⟩
  have hl : pointRangeSamples wHeaderEmpty wBuffersAngleA = [] := rfl
  have hmin : (fillMinMaxData floatLowest floatMax wHeaderEmpty
      wBuffersAngleA).pointFields.pointRangeMinimum = floatMax := by
    rw [fill_pointRangeMinimum_of_cond floatLowest floatMax wHeaderEmpty
      wBuffersAngleA hc, hl]
    rfl
  have hmax : (fillMinMaxData floatLowest floatMax wHeaderEmpty
      wBuffersAngleA).pointFields.pointRangeMaximum = floatLowest := by
    rw [fill_pointRangeMaximum_of_cond floatLowest floatMax wHeaderEmpty
      wBuffersAngleA hc, hl]
    rfl
  refine ⟨hc, hmin, hmax, ?_⟩
  show ¬ ((fillMinMaxData floatLowest floatMax wHeaderEmpty
      wBuffersAngleA).pointFields.pointRangeMinimum ≤
    (fillMinMaxData floatLowest floatMax wHeaderEmpty
      wBuffersAngleA).pointFields.pointRangeMaximum)
  rw [hmin, hmax]
  decide

/-- For each family: if it was resolved (precondition held) and it had at
least one contributing sample, the written bounds satisfy
minimum ≤ maximum. -/
def resolvedBoundsOrderedProp (cMin cMax : ℚ) (h : Data3D)
    (b : Data3DPointsData) : Prop :=
  (writePointRangeCond cMin cMax h.pointFields →
    pointRangeSamples h b ≠ [] →
    (fillMinMaxData cMin cMax h b).pointFields.pointRangeMinimum ≤
      (fillMinMaxData cMin cMax h b).pointFields.pointRangeMaximum) ∧
  (writeAngleCond cMin cMax h.pointFields →
    angleSamples h b ≠ [] →
    (fillMinMaxData cMin cMax h b).pointFields.angleMinimum ≤
      (fillMinMaxData cMin cMax h b).pointFields.angleMaximum) ∧
  (writeIntensityCond h →
    intensitySamples h b ≠ [] →
    (fillMinMaxData cMin cMax h b).intensityLimits.intensityMinimum ≤
      (fillMinMaxData cMin cMax h b).intensityLimits.intensityMaximum) ∧
  (writeTimeStampCond cMin cMax h.pointFields →
    timeSamples h b ≠ [] →
    (fillMinMaxData cMin cMax h b).pointFields.timeMinimum ≤
      (fillMinMaxData cMin cMax h b).pointFields.timeMaximum)

/-- C9 amended: after the pass, every resolved scaled-integer family that
had at least one contributing sample satisfies minimum ≤ maximum.  (With
`pointCount = 0`, or with no enabled geometry field feeding the
point-range family, the contributing sample list is empty and the pass
writes the swapped initial accumulators, minimum = `cMax` >
`cMin` = maximum — see the counterexample.) -/
theorem fillMinMaxData_resolved_bounds_ordered (cMin cMax : ℚ)
    (h : Data3D) (b : Data3DPointsData) :
    resolvedBoundsOrderedProp cMin cMax h b := by
  refine ⟨fun hc hne => ?_, fun hc hne => ?_, fun hc hne => ?_,
    fun hc hne => ?_⟩
  · rw [fill_pointRangeMinimum_of_cond cMin cMax h b hc,
      fill_pointRangeMaximum_of_cond cMin cMax h b hc]
    rcases List.exists_mem_of_ne_nil _ hne with ⟨x, hx⟩
    exact le_trans (foldl_min_le_mem hx cMax) (foldl_max_mem_le hx cMin)
  · rw [fill_angleMinimum_of_cond cMin cMax h b hc,
      fill_angleMaximum_of_cond cMin cMax h b hc]
    rcases List.exists_mem_of_ne_nil _ hne with ⟨x, hx⟩
    exact le_trans (foldl_min_le_mem hx cMax) (foldl_max_mem_le hx cMin)
  · rw [fill_intensityLimits_of_cond cMin cMax h b hc]
    rcases List.exists_mem_of_ne_nil _ hne with ⟨x, hx⟩
    exact le_trans (foldl_min_le_mem hx doubleMax)
      (foldl_max_mem_le hx doubleLowest)
  · rw [fill_timeMinimum_of_cond cMin cMax h b hc,
      fill_timeMaximum_of_cond cMin cMax h b hc]
    rcases List.exists_mem_of_ne_nil _ hne with ⟨x, hx⟩
    exact le_trans (foldl_min_le_mem hx doubleMax)
      (foldl_max_mem_le hx doubleLowest)

theorem fillMinMaxData_resolved_bounds_ordered_witness :
    resolvedBoundsOrderedProp floatLowest floatMax wHeaderAll
      wBuffersAll :=
  fillMinMaxData_resolved_bounds_ordered floatLowest floatMax wHeaderAll
    wBuffersAll

/-! ### Facade flows -/

lemma toSizeT_of_nonneg_lt (x : Int) (h1 : 0 ≤ x) (h2 : x < 2 ^ 64) :
    toSizeT x = x.toNat := by
  unfold toSizeT
  rw [Int.emod_eq_of_lt h1 h2]

lemma toInt64_of_lt (n : Nat) (h : n < 2 ^ 63) : toInt64 n = n := by
  unfold toInt64
  omega

/-- C6: the single-shot 3D flow performs, in this order, exactly:
`_fillMinMaxData` on the header and buffers, one record creation
(`NewData3D`) with the filled header, one streaming-writer setup, one
streaming write of the full declared point count, and one close — and it
returns the record index produced by the creation step.  (Stated for the
generic coordinate extremes, hence for both the float and the double
overload, for any in-range point count.) -/
theorem WriteData3DData_flow (m : ImplModel) (cMin cMax : ℚ) (h : Data3D)
    (b : Data3DPointsData) (log : List WriterCall)
    (h0 : 0 ≤ h.pointCount) (h1 : h.pointCount < 2 ^ 63) :
    WriteData3DData m cMin cMax h b log =
      (m.newData3DIndex (fillMinMaxData cMin cMax h b),
        fillMinMaxData cMin cMax h b,
        log ++
          [WriterCall.newData3D (fillMinMaxData cMin cMax h b),
            WriterCall.setUpData3DPointsData
              (m.newData3DIndex (fillMinMaxData cMin cMax h b))
              h.pointCount.toNat,
            WriterCall.cvWrite h.pointCount.toNat,
            WriterCall.cvClose]) := by
  have hsz : toSizeT (fillMinMaxData cMin cMax h b).pointCount =
      h.pointCount.toNat := by
    rw [fillMinMaxData_pointCount]
    exact toSizeT_of_nonneg_lt h.pointCount h0
      (lt_trans h1 (by norm_num))
  simp [WriteData3DData, hsz]

/-- The container response model used by the facade witnesses. -/
def wImpl : ImplModel where
  newData3DIndex := fun _ => 3
  newImage2DIndex := fun _ => 4
  imageWrittenCount := fun _ _ n => n

theorem WriteData3DData_flow_witness :
    WriteData3DData wImpl floatLowest floatMax wHeaderAll wBuffersAll
        [] =
      (wImpl.newData3DIndex
          (fillMinMaxData floatLowest floatMax wHeaderAll wBuffersAll),
        fillMinMaxData floatLowest floatMax wHeaderAll wBuffersAll,
        [] ++
          [WriterCall.newData3D
              (fillMinMaxData floatLowest floatMax wHeaderAll
                wBuffersAll),
            WriterCall.setUpData3DPointsData
              (wImpl.newData3DIndex
                (fillMinMaxData floatLowest floatMax wHeaderAll
                  wBuffersAll))
              wHeaderAll.pointCount.toNat,
            WriterCall.cvWrite wHeaderAll.pointCount.toNat,
            WriterCall.cvClose]) :=
  WriteData3DData_flow wImpl floatLowest floatMax wHeaderAll wBuffersAll
    [] (by decide) (by decide)

/-- C7: the one-call image form first creates the image record from the
header (forwarded unchanged — no range-statistics pass of any kind
touches an image header, as the call log shows), then streams the given
byte range into the new record, and returns the byte count the write
step reported (valid `size_t` counts below `2^63` survive the cast back
to `int64_t` unchanged). -/
theorem WriteImage2DDataHeader_flow (m : ImplModel) (img : Image2D)
    (ty pr : Nat) (startPos byteCount : Int) (log : List WriterCall)
    (hw : m.imageWrittenCount (m.newImage2DIndex img) startPos
      (toSizeT byteCount) < 2 ^ 63) :
    WriteImage2DDataHeader m img ty pr startPos byteCount log =
      ((m.imageWrittenCount (m.newImage2DIndex img) startPos
          (toSizeT byteCount) : Int),
        log ++
          [WriterCall.newImage2D img,
            WriterCall.writeImage2DData (m.newImage2DIndex img) ty pr
              startPos (toSizeT byteCount)]) := by
  simp [WriteImage2DDataHeader, toInt64_of_lt _ hw]

theorem WriteImage2DDataHeader_flow_witness :
    WriteImage2DDataHeader wImpl {} 1 2 0 150 [] =
      ((wImpl.imageWrittenCount (wImpl.newImage2DIndex {}) 0
          (toSizeT 150) : Int),
        [] ++
          [WriterCall.newImage2D {},
            WriterCall.writeImage2DData (wImpl.newImage2DIndex {}) 1 2 0
              (toSizeT 150)]) :=
  WriteImage2DDataHeader_flow wImpl {} 1 2 0 150 [] (by decide)

/-- C10: in both facade image-write overloads the signed 64-bit byte
count is converted with `static_cast<size_t>` before reaching the
implementation, so the implementation receives the count modulo `2^64`;
for every negative count in the `int64_t` range the forwarded unsigned
byte count is at least `2^63` — huge — rather than the call being
rejected. -/
theorem WriteImage2DData_signed_size_cast (m : ImplModel) (img : Image2D)
    (imageIndex : Int) (ty pr : Nat) (startPos count : Int)
    (log : List WriterCall)
    (hlo : -(2 ^ 63) ≤ count) (hhi : count < 2 ^ 63) :
    (WriteImage2DDataIndex m imageIndex ty pr startPos count log).2 =
        log ++
          [WriterCall.writeImage2DData imageIndex ty pr startPos
            (toSizeT count)] ∧
      (WriteImage2DDataHeader m img ty pr startPos count log).2 =
        log ++
          [WriterCall.newImage2D img,
            WriterCall.writeImage2DData (m.newImage2DIndex img) ty pr
              startPos (toSizeT count)] ∧
      (toSizeT count : Int) = count % 2 ^ 64 ∧
      (count < 0 → 2 ^ 63 ≤ toSizeT count) := by
  refine ⟨rfl, by simp [WriteImage2DDataHeader], ?_, ?_⟩
  · unfold toSizeT
    exact Int.toNat_of_nonneg (Int.emod_nonneg _ (by norm_num))
  · intro hneg
    unfold toSizeT
    omega

theorem WriteImage2DData_signed_size_cast_witness :
    (WriteImage2DDataIndex wImpl 7 1 2 0 (-1) []).2 =
        [] ++ [WriterCall.writeImage2DData 7 1 2 0 (toSizeT (-1))] ∧
      (WriteImage2DDataHeader wImpl {} 1 2 0 (-1) []).2 =
        [] ++
          [WriterCall.newImage2D {},
            WriterCall.writeImage2DData (wImpl.newImage2DIndex {}) 1 2 0
              (toSizeT (-1))] ∧
      (toSizeT (-1) : Int) = (-1) % 2 ^ 64 ∧
      ((-1 : Int) < 0 → 2 ^ 63 ≤ toSizeT (-1)) :=
  WriteImage2DData_signed_size_cast wImpl {} 7 1 2 0 (-1) [] (by decide)
    (by decide)

end E57
